import Mathlib

set_option maxHeartbeats 1600000
set_option maxRecDepth 4000

/-!
Shallow embedding of `VMEncryption/main/oscrypto/rhel_72_lvm/encryptstates/PatchBootSystemState.py`.

The Python class drives external commands; we embed it as a trace-producing
computation.  An `ExecState` holds a logical clock (one tick per executed
external command) and the chronological list of observable events (commands,
log lines, sleeps, file writes/appends, collaborator calls).  An `Env` is the
world oracle: it fixes the exit code and captured stdout of each command as a
function of the clock, plus the values the object reads from its context
(process id, root partition uuid, ...).  Exceptions are modelled by the
`raised` outcome; the unbounded `while` loop of `unmount_var` is modelled with
explicit fuel and a `fuelOut` outcome.
-/

/-- One managed encrypted volume (from `Common.CryptItem`; the class itself is
not under `src/`, its three fields used here are taken from the spec's data
model: device path, mapper name, LUKS header path). -/
structure CryptItem where
  dev_path : String
  mapper_name : String
  luks_header_path : String
deriving DecidableEq, Repr

/-- Observable effects of the Python code, in chronological order. -/
inductive Event where
  | exec (cmd : String)
  | execBash (cmd : String)
  | logMsg (msg : String)
  | sleepSec (n : Nat)
  | chdir (path : String)
  | writeFile (path : String) (contents : String)
  | appendFile (path : String) (contents : String)
  | addKernelOpts (params : List String)
  | addCryptItem (item : CryptItem)
deriving DecidableEq, Repr

/-- Logical clock (ticks once per executed command) plus the event trace. -/
structure ExecState where
  time : Nat
  events : List Event
deriving DecidableEq, Repr

/-- Result of running an embedded computation: normal return, a propagating
Python exception, or fuel exhaustion of the modelled unbounded loop. -/
inductive Outcome (α : Type) where
  | ok (a : α) (s : ExecState)
  | raised (s : ExecState)
  | fuelOut (s : ExecState)
deriving DecidableEq, Repr

def M (α : Type) : Type := ExecState → Outcome α

instance : Monad M where
  pure a := fun s => Outcome.ok a s
  bind x f := fun s =>
    match x s with
    | Outcome.ok a s' => f a s'
    | Outcome.raised s' => Outcome.raised s'
    | Outcome.fuelOut s' => Outcome.fuelOut s'

def emit (e : Event) : M Unit := fun s => Outcome.ok () ⟨s.time, s.events ++ [e]⟩

def raiseM {α : Type} : M α := fun s => Outcome.raised s

def logM (msg : String) : M Unit := emit (Event.logMsg msg)

def sleepM (n : Nat) : M Unit := emit (Event.sleepSec n)

def chdirM (path : String) : M Unit := emit (Event.chdir path)

def writeFileM (path contents : String) : M Unit := emit (Event.writeFile path contents)

/-- World oracle: command behaviour as a function of the logical clock, plus
the context values the state object reads.  Fields `superShouldEnter`,
`superShouldExit`, `root_partuuid`, `boot_uuid`, `bekPath` are modelled from
the spec (base-class lifecycle checks and collaborators are not under
`src/`). -/
structure Env where
  exitCode : Nat → String → Nat
  stdoutOf : Nat → String → String
  pid : Nat
  superShouldEnter : Bool
  superShouldExit : Bool
  mapperExists : Bool
  root_partuuid : String
  boot_uuid : String
  bekPath : String
  scriptdir : String
  executable : String
  argv : List String
  rootfs_block_device : String

/-- `CommandExecutor.Execute(cmd, raise_exception_on_failure)`: log the
command into the trace, obtain its exit code from the oracle, raise on
non-zero when requested, otherwise return the code. -/
def Execute (env : Env) (cmd : String) (raiseOnFail : Bool := false) : M Nat := fun s =>
  let code := env.exitCode s.time cmd
  let s' : ExecState := ⟨s.time + 1, s.events ++ [Event.exec cmd]⟩
  if raiseOnFail ∧ code ≠ 0 then Outcome.raised s' else Outcome.ok code s'

/-- `CommandExecutor.ExecuteInBash`. -/
def ExecuteInBash (env : Env) (cmd : String) (raiseOnFail : Bool := false) : M Nat := fun s =>
  let code := env.exitCode s.time cmd
  let s' : ExecState := ⟨s.time + 1, s.events ++ [Event.execBash cmd]⟩
  if raiseOnFail ∧ code ≠ 0 then Outcome.raised s' else Outcome.ok code s'

/-- `Execute` with a `ProcessCommunicator`: also returns the captured stdout. -/
def ExecuteComm (env : Env) (cmd : String) (raiseOnFail : Bool := false) : M (Nat × String) := fun s =>
  let code := env.exitCode s.time cmd
  let out := env.stdoutOf s.time cmd
  let s' : ExecState := ⟨s.time + 1, s.events ++ [Event.exec cmd]⟩
  if raiseOnFail ∧ code ≠ 0 then Outcome.raised s' else Outcome.ok (code, out) s'

/-- Helper of `pySplitWs`: walk the characters keeping the (reversed) current
token. -/
def splitWsAux : List Char → List Char → List String
  | [], acc => if acc = [] then [] else [String.mk acc.reverse]
  | c :: cs, acc =>
    if c.isWhitespace then
      if acc = [] then splitWsAux cs [] else String.mk acc.reverse :: splitWsAux cs []
    else splitWsAux cs (c :: acc)

/-- Python `str.split()` with no argument: split on whitespace runs, dropping
empty tokens. -/
def pySplitWs (s : String) : List String := splitWsAux s.data []

/-- Python `str.isdigit()` restricted to ASCII digits. -/
def pyIsDigit (s : String) : Bool := !s.data.isEmpty && s.data.all Char.isDigit

/-- Python `int(...)` on a digit string (every call site feeds tokens that
passed `isdigit`). -/
def pyInt (s : String) : Nat := s.data.foldl (fun n c => 10 * n + (c.toNat - 48)) 0

/-- Lexicographic code-point comparison of character lists (Python `str`
comparison: pointwise by code point, shorter prefix first). -/
def lexLt : List Char → List Char → Bool
  | [], [] => false
  | [], _ :: _ => true
  | _ :: _, [] => false
  | a :: as, b :: bs =>
    if a.toNat < b.toNat then true
    else if b.toNat < a.toNat then false
    else lexLt as bs

/-- Python `<` on strings. -/
def strLtB (a b : String) : Bool := lexLt a.data b.data

/-- Does the first character list lead (start) the second one? -/
def leadsList : List Char → List Char → Bool
  | [], _ => true
  | _ :: _, [] => false
  | a :: as, b :: bs => if a.toNat = b.toNat then leadsList as bs else false

/-- Insert into an ascending (lexicographic, code-point) sorted list. -/
def insertAsc (x : String) : List String → List String
  | [] => [x]
  | y :: ys => if strLtB y x then y :: insertAsc x ys else x :: y :: ys

/-- Python `sorted(...)` on a list of strings (ascending). -/
def pySorted (l : List String) : List String := l.foldr insertAsc []

/-- Two-argument `os.path.join`. -/
def pyPathJoin (a b : String) : String :=
  if leadsList "/".data b.data then b
  else if a = "" then b
  else if leadsList "/".data a.data.reverse then a ++ b
  else a ++ "/" ++ b

/-- Helper of `pyLines`: split at every newline, keeping empty pieces
(Python `str.split` with an explicit separator). -/
def splitNlAux : List Char → List Char → List String
  | [], acc => [String.mk acc.reverse]
  | c :: cs, acc =>
    if c = '\n' then String.mk acc.reverse :: splitNlAux cs []
    else splitNlAux cs (c :: acc)

def pyLines (s : String) : List String := splitNlAux s.data []

/-- The literal part of the pattern `ATTR\x7bpartition\x7d=="(.*)"`. -/
def attrPattern : List Char := "ATTR\x7bpartition\x7d==\"".data

/-- Drop everything up to and including the first occurrence of `pat`;
`none` when `pat` does not occur. -/
def dropAfterFirst (pat : List Char) : List Char → Option (List Char)
  | [] => if pat = [] then some [] else none
  | c :: cs =>
    if pat.isPrefixOf (c :: cs) then some ((c :: cs).drop pat.length)
    else dropAfterFirst pat cs

/-- Greedy `(.*)"` over the rest of a line: capture everything up to the last
double quote, `none` when no quote remains. -/
def greedyCapture (rest : List Char) : Option (List Char) :=
  if rest.contains '"' then
    some (rest.take (rest.length - 1 - rest.reverse.indexOf '"'))
  else none

def lineAttrCapture (line : String) : Option String :=
  match dropAfterFirst attrPattern line.data with
  | none => none
  | some rest => (greedyCapture rest).map (fun cs => String.mk cs)

/-- `re.findall` of `ATTR\x7bpartition\x7d=="(.*)"` over the udevadm output:
`.` does not cross newlines and `(.*)` is greedy, so each line yields at most
one capture, from after the first literal occurrence to the last quote. -/
def attrPartitionMatches (s : String) : List String :=
  (pyLines s).filterMap lineAttrCapture

namespace CommonVariables

/-- Modelled from the spec: extension naming constants of `Common.py` (not
under `src/`); only used to build forensic-copy command strings, no claim
depends on their values. -/
def extension_name : String := "AzureDiskEncryptionForLinux"

/-- Modelled from the spec: extension version constant of `Common.py`. -/
def extension_version : String := "1.0.0.0"

/-- Modelled from the spec: test publisher constant of `Common.py`. -/
def test_extension_publisher : String := "Microsoft.Azure.Security.Edp."

/-- Modelled from the spec: test extension name constant of `Common.py`. -/
def test_extension_name : String := "AzureDiskEncryptionForLinuxTest"

/-- Modelled from the spec: the well-known root mapper constant of
`Common.py` (the encrypted mapper device is `/dev/mapper/osencrypt`). -/
def osmapper_name : String := "osencrypt"

end CommonVariables

/-- Modelled from the spec: `addKernelOpts` interface of the base class (not
under `src/`); recorded as a collaborator-call event. -/
def add_kernelopts (params : List String) : M Unit := emit (Event.addKernelOpts params)

/-- Modelled from the spec: `crypt_mount_config_util.add_crypt_item`
collaborator; recorded as a collaborator-call event. -/
def add_crypt_item (item : CryptItem) : M Unit := emit (Event.addCryptItem item)

def initState : ExecState := ⟨0, []⟩

namespace PatchBootSystemState

/-- `should_enter` (lines 41-52).  The base-class check and the
`/dev/mapper/osencrypt` existence probe are modelled from the spec as the
pure oracle fields `superShouldEnter` and `mapperExists` (neither executes an
external command). -/
def should_enter (env : Env) : M Bool := do
  logM "Verifying if machine should enter patch_boot_system state"
  if !env.superShouldEnter then
    pure false
  else do
    logM "Performing enter checks for patch_boot_system state"
    if !env.mapperExists then pure false else pure true

/-- `_luks_open` (lines 306-310). -/
def luks_open (env : Env) (bek_path : String) : M Unit := do
  let _ ← Execute env "mount /boot"
  let _ ← Execute env
    ("cryptsetup luksOpen --header /boot/luks/osluksheader " ++
      env.rootfs_block_device ++ " osencrypt -d " ++ bek_path) true
  pure ()

/-- `_find_bek_and_execute_action('_luks_open')` (lines 312-318): the
callback named `_luks_open` is a method, so the check passes; the BEK
collaborator (`bek_util.get_bek_passphrase_file`, not under `src/`) is
modelled from the spec as the pure oracle field `bekPath`. -/
def find_bek_and_execute_action (env : Env) : M Unit :=
  luks_open env env.bekPath

/-- The seven best-effort service stops opening each `unmount_var` iteration
(lines 167-173). -/
def stop_services (env : Env) : M Unit := do
  let _ ← Execute env "systemctl stop NetworkManager"
  let _ ← Execute env "systemctl stop rsyslog"
  let _ ← Execute env "systemctl stop systemd-udevd"
  let _ ← Execute env "systemctl stop systemd-journald"
  let _ ← Execute env "systemctl stop systemd-hostnamed"
  let _ ← Execute env "systemctl stop atd"
  let _ ← Execute env "systemctl stop postfix"
  pure ()

/-- The self-PID branch of the kill-candidate loop (lines 200-215). -/
def self_branch (env : Env) : M Unit := do
  logM "Restarting WALA before committing suicide"
  logM ("Current executable path: " ++ env.executable)
  logM ("Current executable arguments: " ++ String.intercalate " " env.argv)
  let _ ← Execute env "systemctl restart atd"
  chdirM "/"
  writeFileM "/delete-lock.sh"
    "rm -f /var/lib/azure_disk_encryption_config/daemon_lock_file.lck\n"
  let _ ← Execute env "at -f /delete-lock.sh now + 1 minutes" true
  let _ ← Execute env "at -f /restart-wala.sh now + 2 minutes" true
  let _ ← ExecuteInBash env "pkill -f .*ForLinux.*handle.py.*daemon.*" true
  pure ()

/-- The `for victim in procs_to_kill` loop (lines 199-221).  The self branch
does not `continue`, so control falls through to the pid-1 test and, when the
victim is not pid 1, to the `kill -9`. -/
def kill_loop (env : Env) : List String → M Unit
  | [] => pure ()
  | victim :: rest => do
    if pyInt victim = env.pid then self_branch env else pure ()
    if pyInt victim = 1 then do
      logM "Skipping init"
      kill_loop env rest
    else do
      let _ ← Execute env ("kill -9 " ++ victim)
      kill_loop env rest

/-- Body of `unmount` from the mounted-check on (lines 185-227).  `unmount`
called on `'/var'` skips the recursive `unmount_var` prologue and is exactly
this body; `unmount_var`'s own `self.unmount('/var')` is therefore this
computation. -/
def unmount_body (env : Env) (mountpoint : String) : M Unit := do
  let c ← Execute env ("mountpoint " ++ mountpoint)
  if c ≠ 0 then pure ()
  else do
    let r ← ExecuteComm env ("fuser -vm " ++ mountpoint) true
    logM ("Processes using " ++ mountpoint ++ ":\n" ++ r.2)
    let procs_to_kill := (pySorted ((pySplitWs r.2).filter (fun p => pyIsDigit p))).reverse
    kill_loop env procs_to_kill
    let _ ← Execute env "telinit u" true
    sleepM 3
    let _ ← Execute env ("umount " ++ mountpoint) true
    pure ()

/-- One iteration prefix of the `unmount_var` while-loop: stop the services,
run `unmount('/var')`, settle 3 seconds (lines 167-176). -/
def unmount_var_iter (env : Env) : M Unit := do
  stop_services env
  unmount_body env "/var"
  sleepM 3

/-- `unmount_var` (lines 163-179): loop until the `mountpoint /var` probe
returns a non-zero exit status.  The Python loop is unbounded; the fuel
argument only bounds the modelled unrolling, exhaustion is reported as
`fuelOut`. -/
def unmount_var (env : Env) : Nat → M Unit
  | 0 => fun s => Outcome.fuelOut s
  | fuel + 1 => do
    unmount_var_iter env
    let c ← Execute env "mountpoint /var"
    if c ≠ 0 then pure () else unmount_var env fuel

/-- `unmount` (lines 181-227). -/
def unmount (env : Env) (fuel : Nat) (mountpoint : String) : M Unit := do
  if mountpoint ≠ "/var" then unmount_var env fuel else pure ()
  unmount_body env mountpoint

/-- The per-mountpoint body of the loop in `unmount_lvm_volumes`
(lines 155-159). -/
def unmount_lvm_loop (env : Env) (fuel : Nat) : List String → M Unit
  | [] => pure ()
  | mp :: rest => do
    let c ← Execute env ("mountpoint /oldroot" ++ mp)
    if c = 0 then unmount env fuel ("/oldroot" ++ mp) else pure ()
    let c2 ← Execute env ("mountpoint " ++ mp)
    if c2 = 0 then unmount env fuel mp else pure ()
    unmount_lvm_loop env fuel rest

/-- `unmount_lvm_volumes` (lines 151-161). -/
def unmount_lvm_volumes (env : Env) (fuel : Nat) : M Unit := do
  let _ ← Execute env "swapoff -a" true
  let _ ← Execute env "umount -a"
  unmount_lvm_loop env fuel ["/var", "/opt", "/tmp", "/home", "/usr"]
  unmount_var env fuel

/-- `_append_contents_to_file` (lines 229-236): `io.open(path, 'a')` followed
by one write; under Python 3 the decode branch is the identity on the (already
unicode) contents. -/
def append_contents_to_file (contents path : String) : M Unit :=
  emit (Event.appendFile path contents)

/-- The initramfs rebuild command (lines 276 and 303). -/
def dracut_rebuild_cmd : String :=
  "/usr/sbin/dracut -f -v --kver `grubby --default-kernel | sed \x27s|/boot/vmlinuz-||g\x27`"

/-- `_modify_pivoted_oldroot_with_partuuid` (lines 246-276). -/
def modify_pivoted_oldroot_with_partuuid (env : Env) (root_partuuid boot_uuid : String) : M Unit := do
  let ademoduledir := pyPathJoin env.scriptdir "../../91adeOnline"
  let _ ← Execute env ("cp -r " ++ ademoduledir ++ " /lib/dracut/modules.d/") true
  append_contents_to_file "\nadd_drivers+=\" dm_crypt \"\n" "/etc/dracut.conf.d/ade.conf"
  append_contents_to_file
    "\nadd_fstab+=\" /lib/dracut/modules.d/91adeOnline/ade_fstab_line \"\n"
    "/etc/dracut.conf.d/ade.conf"
  let additional_params :=
    ["rd.luks.ade.partuuid=" ++ root_partuuid, "rd.luks.ade.bootuuid=" ++ boot_uuid, "rd.debug"]
  add_kernelopts additional_params
  let crypt_item : CryptItem :=
    { dev_path := pyPathJoin "/dev/disk/by-partuuid/" root_partuuid
      mapper_name := CommonVariables.osmapper_name
      luks_header_path := "/boot/luks/osluksheader" }
  add_crypt_item crypt_item
  append_contents_to_file "\nadd_dracutmodules+=\" crypt lvm\"\n" "/etc/dracut.conf.d/ade.conf"
  let _ ← ExecuteInBash env dracut_rebuild_cmd true
  pure ()

/-- `_modify_pivoted_oldroot_no_partuuid` (lines 278-304): attribute-probe
path; raises (`Could not parse ATTR\x7bpartition\x7d from udevadm info`) when
the attribute walk has no match. -/
def modify_pivoted_oldroot_no_partuuid (env : Env) : M Unit := do
  let ademoduledir := pyPathJoin env.scriptdir "../../91ade"
  let udevaderulepath := pyPathJoin "/lib/dracut/modules.d" "91ade/50-udev-ade.rules"
  let _ ← Execute env ("cp -r " ++ ademoduledir ++ " /lib/dracut/modules.d/") true
  let r ← ExecuteComm env
    ("udevadm info --attribute-walk --name=" ++ env.rootfs_block_device) true
  match attrPartitionMatches r.2 with
  | [] => raiseM
  | partition :: _ => do
    let _ ← Execute env
      ("sed -i.bak s/ENCRYPTED_DISK_PARTITION/" ++ partition ++ "/ \"" ++
        udevaderulepath ++ "\"") true
    append_contents_to_file "\nadd_drivers+=\" fuse vfat nls_cp437 nls_iso8859-1\"\n"
      "/etc/dracut.conf"
    append_contents_to_file "\nadd_dracutmodules+=\" crypt\"\n" "/etc/dracut.conf"
    let _ ← ExecuteInBash env dracut_rebuild_cmd true
    add_kernelopts ["rd.debug"]

/-- `_modify_pivoted_oldroot` (lines 238-244): a falsy (empty) root partuuid
selects the attribute-probe path, otherwise the uuid path with the boot uuid
resolved through `_get_boot_uuid` (base class, modelled from the spec as the
oracle field `boot_uuid`). -/
def modify_pivoted_oldroot (env : Env) : M Unit := do
  logM "Pivoted into oldroot successfully"
  if env.root_partuuid = "" then modify_pivoted_oldroot_no_partuuid env
  else modify_pivoted_oldroot_with_partuuid env env.root_partuuid env.boot_uuid

/-- The four commands shared by the rollback branch (lines 92-95) and the
start of the success branch (lines 99-102): private remount, pivot back,
remove the staging directory, move the virtual filesystems back. -/
def pivot_back_cmds (env : Env) : M Unit := do
  let _ ← Execute env "mount --make-rprivate /"
  let _ ← Execute env "pivot_root /memroot /memroot/oldroot"
  let _ ← Execute env "rmdir /oldroot/memroot"
  let _ ← ExecuteInBash env "for i in dev proc sys boot; do mount --move /oldroot/$i /$i; done"
  pure ()

def extension_full_name : String :=
  "Microsoft.Azure.Security." ++ CommonVariables.extension_name

def extension_versioned_name : String :=
  "Microsoft.Azure.Security." ++ CommonVariables.extension_name ++ "-" ++
    CommonVariables.extension_version

def test_extension_full_name : String :=
  CommonVariables.test_extension_publisher ++ CommonVariables.test_extension_name

def test_extension_versioned_name : String :=
  CommonVariables.test_extension_publisher ++ CommonVariables.test_extension_name ++ "-" ++
    CommonVariables.extension_version

/-- The `else` (success) branch of the try (lines 99-144), after its four
pivot-back commands. -/
def enter_success_tail (env : Env) (fuel : Nat) : M Unit := do
  let _ ← Execute env
    ("/bin/cp -ax /var/log/azure/" ++ extension_full_name ++
      " /oldroot/var/log/azure/" ++ extension_full_name ++ ".Stripdown")
  let _ ← ExecuteInBash env
    ("/bin/cp -ax /var/lib/waagent/" ++ extension_versioned_name ++
      "/config/*.settings.rejected /oldroot/var/lib/waagent/" ++
      extension_versioned_name ++ "/config")
  let _ ← ExecuteInBash env
    ("/bin/cp -ax /var/lib/waagent/" ++ extension_versioned_name ++
      "/status/*.status.rejected /oldroot/var/lib/waagent/" ++
      extension_versioned_name ++ "/status")
  let _ ← Execute env
    ("/bin/cp -ax /var/log/azure/" ++ test_extension_full_name ++
      " /oldroot/var/log/azure/" ++ test_extension_full_name ++ ".Stripdown")
  let _ ← ExecuteInBash env
    ("/bin/cp -ax /var/lib/waagent/" ++ test_extension_versioned_name ++
      "/config/*.settings.rejected /oldroot/var/lib/waagent/" ++
      test_extension_versioned_name ++ "/config")
  let _ ← ExecuteInBash env
    ("/bin/cp -ax /var/lib/waagent/" ++ test_extension_versioned_name ++
      "/status/*.status.rejected /oldroot/var/lib/waagent/" ++
      test_extension_versioned_name ++ "/status")
  let _ ← Execute env "/bin/cp -ax /var/log/waagent.log /oldroot/var/log/waagent.log.pivotroot"
  let _ ← ExecuteInBash env
    ("/bin/cp -ax /var/lib/azure_disk_encryption_config/os_encryption_markers/*" ++
      " /oldroot/var/lib/azure_disk_encryption_config/os_encryption_markers/") true
  let _ ← Execute env
    "touch /oldroot/var/lib/azure_disk_encryption_config/os_encryption_markers/PatchBootSystemState"
    true
  let _ ← Execute env "umount /boot"
  let _ ← Execute env "umount /oldroot"
  let _ ← Execute env "systemctl restart waagent"
  logM "Pivoted back into memroot successfully"
  unmount_lvm_volumes env fuel

/-- Python `try body except: handler; raise else: els`: on a raise in the
body, run the handler and re-raise; on normal completion run the `else`
block. -/
def tryElse (body handler els : M Unit) : M Unit := fun s =>
  match body s with
  | Outcome.ok _ s' => els s'
  | Outcome.fuelOut s' => Outcome.fuelOut s'
  | Outcome.raised s' =>
    match handler s' with
    | Outcome.ok _ s'' => Outcome.raised s''
    | Outcome.raised s'' => Outcome.raised s''
    | Outcome.fuelOut s'' => Outcome.fuelOut s''

/-- The body of `enter` between the guard and the try (lines 58-87),
including the pivot into the old root and the two post-pivot commands that
precede the try. -/
def enter_prelude (env : Env) (fuel : Nat) : M Unit := do
  logM "Entering patch_boot_system state"
  let _ ← Execute env "systemctl restart lvm2-lvmetad"
  let _ ← Execute env "pvscan" true
  let _ ← Execute env "vgcfgrestore -f /volumes.lvm rootvg" true
  let _ ← Execute env "cryptsetup luksClose osencrypt" true
  find_bek_and_execute_action env
  unmount_lvm_volumes env fuel
  let _ ← Execute env "vgchange -a y rootvg"
  let _ ← Execute env "mount /dev/rootvg/rootlv /oldroot" true
  let _ ← Execute env "mount /dev/rootvg/varlv /oldroot/var" true
  let _ ← Execute env "mount /dev/rootvg/usrlv /oldroot/usr" true
  let _ ← Execute env "mount /dev/rootvg/tmplv /oldroot/tmp" true
  let _ ← Execute env "mount /dev/rootvg/homelv /oldroot/home" true
  let _ ← Execute env "mount /dev/rootvg/optlv /oldroot/opt" true
  let _ ← Execute env "mount /boot"
  let _ ← Execute env "mount /boot/efi"
  let _ ← Execute env "mount --make-rprivate /" true
  let _ ← Execute env "mkdir /oldroot/memroot" true
  let _ ← Execute env "pivot_root /oldroot /oldroot/memroot" true
  let _ ← ExecuteInBash env "for i in dev proc sys boot; do mount --move /memroot/$i /$i; done" true
  let _ ← ExecuteInBash env "[ -e \"/boot/luks\" ]" true
  pure ()

/-- `enter` after a positive guard (lines 58-144): the prelude up to and
including the two post-pivot commands, then the try/except/else around the
Boot Config Patcher. -/
def enter_main (env : Env) (fuel : Nat) : M Unit := do
  enter_prelude env fuel
  tryElse (modify_pivoted_oldroot env) (pivot_back_cmds env)
    (do pivot_back_cmds env; enter_success_tail env fuel)

/-- `enter` (lines 54-144). -/
def enter (env : Env) (fuel : Nat) : M Unit := do
  let se ← should_enter env
  if !se then pure () else enter_main env fuel

/-- `should_exit` (lines 146-149); the base-class postcondition is modelled
from the spec as the pure oracle field `superShouldExit`. -/
def should_exit (env : Env) : M Bool := do
  logM "Verifying if machine should exit patch_boot_system state"
  pure env.superShouldExit

end PatchBootSystemState

/-- State reached by a computation, whatever the outcome. -/
def outState {α : Type} : Outcome α → ExecState
  | Outcome.ok _ s => s
  | Outcome.raised s => s
  | Outcome.fuelOut s => s

def isOk {α : Type} : Outcome α → Bool
  | Outcome.ok _ _ => true
  | _ => false

def isRaised {α : Type} : Outcome α → Bool
  | Outcome.raised _ => true
  | _ => false

def isFuelOut {α : Type} : Outcome α → Bool
  | Outcome.fuelOut _ => true
  | _ => false

/-- Is the event a `kill -9` command? -/
def isKillCmd : Event → Option String
  | Event.exec c => if leadsList "kill -9 ".data c.data then some c else none
  | _ => none

/-- The `kill -9` command lines of a trace, in order. -/
def killCmds (evs : List Event) : List String := evs.filterMap isKillCmd

/-- Everything in a trace except pure logging and sleeping: external commands
and state mutations (directory change, file writes/appends, collaborator
calls). -/
def commandEvents (evs : List Event) : List Event :=
  evs.filter fun e =>
    match e with
    | Event.logMsg _ => false
    | Event.sleepSec _ => false
    | _ => true

/-- The `open(path, 'w')`-style file writes of a trace. -/
def writeFileEvents (evs : List Event) : List (String × String) :=
  evs.filterMap fun e =>
    match e with
    | Event.writeFile p c => some (p, c)
    | _ => none

/-- The argument lists of the `_add_kernelopts` collaborator calls. -/
def kernelOptsCalls (evs : List Event) : List (List String) :=
  evs.filterMap fun e =>
    match e with
    | Event.addKernelOpts ps => some ps
    | _ => none

/-- The registered crypt items of a trace. -/
def cryptItemsAdded (evs : List Event) : List CryptItem :=
  evs.filterMap fun e =>
    match e with
    | Event.addCryptItem it => some it
    | _ => none

/-- The chunks appended to `path`, in order. -/
def appendsTo (path : String) (evs : List Event) : List String :=
  evs.filterMap fun e =>
    match e with
    | Event.appendFile p c => if p = path then some c else none
    | _ => none

/-- Replay the file events of a trace on one file starting from `base`. -/
def fileContent (path base : String) (evs : List Event) : String :=
  evs.foldl
    (fun acc e =>
      match e with
      | Event.appendFile p c => if p = path then acc ++ c else acc
      | Event.writeFile p c => if p = path then c else acc
      | _ => acc)
    base

/-- The `umount`/`umount -a` command lines of a trace. -/
def umountCmds (evs : List Event) : List String :=
  evs.filterMap fun e =>
    match e with
    | Event.exec c => if leadsList "umount".data c.data then some c else none
    | _ => none

/-- Is the command a `mountpoint` probe? (used by the concrete worlds to say
that nothing is mounted). -/
def isMountProbe (cmd : String) : Bool := leadsList "mountpoint".data cmd.data

/-- A benign concrete world: every command succeeds with empty output, the
lifecycle precondition holds and the mapper device exists. -/
def baseEnv : Env :=
  { exitCode := fun _ _ => 0
    stdoutOf := fun _ _ => ""
    pid := 4000
    superShouldEnter := true
    superShouldExit := true
    mapperExists := true
    root_partuuid := "abc"
    boot_uuid := "bu"
    bekPath := "/bek"
    scriptdir := "/s"
    executable := "/usr/bin/python"
    argv := ["handle.py"]
    rootfs_block_device := "/dev/sda1" }

/-- World for the C1 counterexample: nothing is mounted, every command
succeeds except the post-pivot `[ -e "/boot/luks" ]` verification, which
fails. -/
def envBootLuksFails : Env :=
  { baseEnv with
    exitCode := fun _ cmd =>
      if cmd = "[ -e \"/boot/luks\" ]" then 1
      else if isMountProbe cmd then 1
      else 0 }

/-- World for the C1 amended witness: nothing is mounted, every command
succeeds except the module-directory copy inside the Boot Config Patcher,
which fails (so `_modify_pivoted_oldroot` raises inside the try). -/
def envPatcherFails : Env :=
  { baseEnv with
    exitCode := fun _ cmd =>
      if cmd = "cp -r /s/../../91adeOnline /lib/dracut/modules.d/" then 1
      else if isMountProbe cmd then 1
      else 0 }

/-- The four-command compensating sequence as trace events. -/
def pivotBackEvents : List Event :=
  [Event.exec "mount --make-rprivate /",
   Event.exec "pivot_root /memroot /memroot/oldroot",
   Event.exec "rmdir /oldroot/memroot",
   Event.execBash "for i in dev proc sys boot; do mount --move /oldroot/$i /$i; done"]

/-- World for C2: `/var` is mounted at first, the fuser query reports the
processes 9 and 10, everything succeeds. -/
def envLexOrder : Env :=
  { baseEnv with
    exitCode := fun t cmd => if cmd = "mountpoint /var" then (if t = 0 then 0 else 1) else 0
    stdoutOf := fun _ cmd => if cmd = "fuser -vm /var" then "9 10" else "" }

/-- World for C3: the reclaimer's own pid is 50, `/var` is mounted at first
and the fuser query reports the candidate set 1, 50 (self), 3000. -/
def envSelfKill : Env :=
  { baseEnv with
    pid := 50
    exitCode := fun t cmd => if cmd = "mountpoint /var" then (if t = 0 then 0 else 1) else 0
    stdoutOf := fun _ cmd => if cmd = "fuser -vm /var" then "1 50 3000" else "" }

/-- World for C4: `/opt` is never mounted, `/var` is mounted until it is
freed (its probe flips at clock 8, right after the forced umount), and the
fuser query on `/var` reports a single blocking process 7. -/
def envOptNotMounted : Env :=
  { baseEnv with
    exitCode := fun t cmd =>
      if cmd = "mountpoint /var" then (if t < 8 then 0 else 1)
      else if cmd = "mountpoint /opt" then 1
      else 0
    stdoutOf := fun _ cmd => if cmd = "fuser -vm /var" then "7" else "" }

/-- World where no mount point is mounted and everything else succeeds. -/
def envNotMounted : Env :=
  { baseEnv with exitCode := fun _ cmd => if isMountProbe cmd then 1 else 0 }

/-- World for C7's parse-failure branch: no root partuuid is known and the
udevadm attribute walk output contains no `ATTR\x7bpartition\x7d` match. -/
def envNoAttr : Env :=
  { baseEnv with
    root_partuuid := ""
    stdoutOf := fun _ cmd =>
      if cmd = "udevadm info --attribute-walk --name=/dev/sda1" then
        "looking at device\n SUBSYSTEMS==\"scsi\"\n" else "" }

/-- World for C9: the generic lifecycle precondition fails. -/
def envNoEnter : Env := { baseEnv with superShouldEnter := false }

/-- Intermediate states of the C1 witness run (world `envPatcherFails`):
after the guard, after the prelude, and after the raising patcher body. -/
def c1wS0 : ExecState := outState (PatchBootSystemState.should_enter envPatcherFails initState)

def c1wS1 : ExecState := outState (PatchBootSystemState.enter_prelude envPatcherFails 3 c1wS0)

def c1wS2 : ExecState := outState (PatchBootSystemState.modify_pivoted_oldroot envPatcherFails c1wS1)

/-- The full event block of the self-PID branch when it completes without a
raise: three log lines, the atd restart, the directory change, the lock-file
script write, the two deferred-scheduler submissions and the pkill. -/
def selfEventsFull (env : Env) : List Event :=
  [Event.logMsg "Restarting WALA before committing suicide",
   Event.logMsg ("Current executable path: " ++ env.executable),
   Event.logMsg ("Current executable arguments: " ++ String.intercalate " " env.argv),
   Event.exec "systemctl restart atd",
   Event.chdir "/",
   Event.writeFile "/delete-lock.sh"
     "rm -f /var/lib/azure_disk_encryption_config/daemon_lock_file.lck\n",
   Event.exec "at -f /delete-lock.sh now + 1 minutes",
   Event.exec "at -f /restart-wala.sh now + 2 minutes",
   Event.execBash "pkill -f .*ForLinux.*handle.py.*daemon.*"]

/-- Event block of one kill-loop run that never meets the self pid: a skip
log for pid-1 victims, a kill command for everyone else. -/
def killTraceOf : List String → List Event
  | [] => []
  | v :: vs =>
    (if pyInt v = 1 then [Event.logMsg "Skipping init"]
     else [Event.exec ("kill -9 " ++ v)]) ++ killTraceOf vs

/-- Event block of one complete kill-loop run: the self-PID branch block for
victims matching the own pid, then the skip log or the kill command. -/
def killLoopTrace (env : Env) : List String → List Event
  | [] => []
  | v :: vs =>
    (if pyInt v = env.pid then selfEventsFull env else []) ++
      (if pyInt v = 1 then [Event.logMsg "Skipping init"]
       else [Event.exec ("kill -9 " ++ v)]) ++ killLoopTrace env vs

/-- The kill-candidate list `unmount` derives from a fuser output: the digit
tokens, sorted ascending as Python strings, then reversed. -/
def pyDescTokens (out : String) : List String :=
  (pySorted ((pySplitWs out).filter (fun p => pyIsDigit p))).reverse

def adeConfPath : String := "/etc/dracut.conf.d/ade.conf"

def adeConfLine1 : String := "\nadd_drivers+=\" dm_crypt \"\n"

def adeConfLine2 : String := "\nadd_fstab+=\" /lib/dracut/modules.d/91adeOnline/ade_fstab_line \"\n"

def adeConfLine3 : String := "\nadd_dracutmodules+=\" crypt lvm\"\n"

/-- The module-copy command of the uuid patch path. -/
def patchCpCmd (env : Env) : String :=
  "cp -r " ++ pyPathJoin env.scriptdir "../../91adeOnline" ++ " /lib/dracut/modules.d/"

/-- The full event block of one uuid-path patcher run whose module copy
succeeded (the trailing dracut rebuild may or may not raise, its event is
emitted either way). -/
def patchTraceOf (env : Env) (r b : String) : List Event :=
  [Event.exec (patchCpCmd env),
   Event.appendFile adeConfPath adeConfLine1,
   Event.appendFile adeConfPath adeConfLine2,
   Event.addKernelOpts ["rd.luks.ade.partuuid=" ++ r, "rd.luks.ade.bootuuid=" ++ b, "rd.debug"],
   Event.addCryptItem ⟨pyPathJoin "/dev/disk/by-partuuid/" r, CommonVariables.osmapper_name,
     "/boot/luks/osluksheader"⟩,
   Event.appendFile adeConfPath adeConfLine3,
   Event.execBash PatchBootSystemState.dracut_rebuild_cmd]

/-- State after one completed `unmount_var` iteration prefix in the world
where nothing is mounted. -/
def c6wS1 : ExecState := outState (PatchBootSystemState.unmount_var_iter envNotMounted initState)

/-- State returned by the guard in the world whose lifecycle precondition
fails. -/
def c9wS0 : ExecState := outState (PatchBootSystemState.should_enter envNoEnter initState)

/-- Every `open(..., "w")`-style write of the trace targets the lock-removal
script `/delete-lock.sh`. -/
def onlyLockWrites (evs : List Event) : Prop :=
  ∀ p c, Event.writeFile p c ∈ evs → p = "/delete-lock.sh"

/-- The computation can only extend a trace with lock-script writes (no
other file is ever created by an `open(..., "w")` write). -/
def preservesLockWrites {α : Type} (A : M α) : Prop :=
  ∀ s, onlyLockWrites s.events → onlyLockWrites (outState (A s)).events

-- ===================== theorems =====================

theorem M_bind_apply {α β : Type} (x : M α) (f : α → M β) (s : ExecState) :
    (x >>= f) s =
      match x s with
      | Outcome.ok a s' => f a s'
      | Outcome.raised s' => Outcome.raised s'
      | Outcome.fuelOut s' => Outcome.fuelOut s' := rfl

theorem M_pure_apply {α : Type} (a : α) (s : ExecState) : (pure a : M α) s = Outcome.ok a s := rfl

theorem emit_apply (e : Event) (s : ExecState) :
    emit e s = Outcome.ok () ⟨s.time, s.events ++ [e]⟩ := rfl

theorem Execute_false_apply (env : Env) (cmd : String) (s : ExecState) :
    Execute env cmd false s =
      Outcome.ok (env.exitCode s.time cmd) ⟨s.time + 1, s.events ++ [Event.exec cmd]⟩ := rfl

theorem ExecuteInBash_false_apply (env : Env) (cmd : String) (s : ExecState) :
    ExecuteInBash env cmd false s =
      Outcome.ok (env.exitCode s.time cmd) ⟨s.time + 1, s.events ++ [Event.execBash cmd]⟩ := rfl

theorem Execute_true_ok (env : Env) (cmd : String) (s : ExecState)
    (h : env.exitCode s.time cmd = 0) :
    Execute env cmd true s = Outcome.ok 0 ⟨s.time + 1, s.events ++ [Event.exec cmd]⟩ := by
  simp [Execute, h]

theorem Execute_true_raised (env : Env) (cmd : String) (s : ExecState)
    (h : env.exitCode s.time cmd ≠ 0) :
    Execute env cmd true s = Outcome.raised ⟨s.time + 1, s.events ++ [Event.exec cmd]⟩ := by
  simp [Execute, h]

theorem ExecuteInBash_true_ok (env : Env) (cmd : String) (s : ExecState)
    (h : env.exitCode s.time cmd = 0) :
    ExecuteInBash env cmd true s =
      Outcome.ok 0 ⟨s.time + 1, s.events ++ [Event.execBash cmd]⟩ := by
  simp [ExecuteInBash, h]

theorem ExecuteComm_true_ok (env : Env) (cmd : String) (s : ExecState)
    (h : env.exitCode s.time cmd = 0) :
    ExecuteComm env cmd true s =
      Outcome.ok (0, env.stdoutOf s.time cmd) ⟨s.time + 1, s.events ++ [Event.exec cmd]⟩ := by
  simp [ExecuteComm, h]

/-- The compensating pivot-back block never raises and appends exactly its
four commands to the trace. -/
theorem pivot_back_run (env : Env) (s : ExecState) :
    PatchBootSystemState.pivot_back_cmds env s =
      Outcome.ok () ⟨s.time + 4, s.events ++ pivotBackEvents⟩ := by
  simp [PatchBootSystemState.pivot_back_cmds, M_bind_apply, Execute_false_apply,
    ExecuteInBash_false_apply, M_pure_apply, pivotBackEvents]

/-- C1 counterexample: in the world `envBootLuksFails` the post-pivot
verification command `[ -e "/boot/luks" ]` — executed after `pivot_root
/oldroot /oldroot/memroot` and before any pivot back — fails and the raised
error propagates with NO further command: the failing command is the last
event of the trace, so the commands executed after the failure are not the
compensating rollback sequence.  This refutes the claim that every failure
raised inside the pivoted section is followed by the rollback. -/
theorem c1_counterexample :
    isRaised (PatchBootSystemState.enter envBootLuksFails 3 initState) = true ∧
    (outState (PatchBootSystemState.enter envBootLuksFails 3 initState)).events.getLast? =
      some (Event.execBash "[ -e \"/boot/luks\" ]") ∧
    (outState (PatchBootSystemState.enter envBootLuksFails 3 initState)).events[42]? =
      some (Event.exec "pivot_root /oldroot /oldroot/memroot") :=
  ⟨rfl, rfl, rfl⟩

/-- C1 (amended): every failure raised inside the Boot Config Patcher step
(`_modify_pivoted_oldroot`, the body of the try) is followed by exactly the
compensating rollback sequence — private remount, pivot back, staging-dir
removal, moving the virtual filesystems back — after which the original
error is re-raised.  (Failures of the two post-pivot commands that precede
the try — the virtual-filesystem move and the `/boot/luks` check — propagate
without this rollback, as the counterexample shows.) -/
theorem c1_amended (env : Env) (fuel : Nat) (s₀ s₁ s₂ : ExecState)
    (hse : PatchBootSystemState.should_enter env initState = Outcome.ok true s₀)
    (hpre : PatchBootSystemState.enter_prelude env fuel s₀ = Outcome.ok () s₁)
    (hbody : PatchBootSystemState.modify_pivoted_oldroot env s₁ = Outcome.raised s₂) :
    PatchBootSystemState.enter env fuel initState =
      Outcome.raised ⟨s₂.time + 4, s₂.events ++ pivotBackEvents⟩ := by
  have h1 : PatchBootSystemState.enter env fuel initState =
      PatchBootSystemState.enter_main env fuel s₀ := by
    simp [PatchBootSystemState.enter, M_bind_apply, hse]
  have h2 : PatchBootSystemState.enter_main env fuel s₀ =
      PatchBootSystemState.tryElse (PatchBootSystemState.modify_pivoted_oldroot env)
        (PatchBootSystemState.pivot_back_cmds env)
        (do PatchBootSystemState.pivot_back_cmds env
            PatchBootSystemState.enter_success_tail env fuel) s₁ := by
    simp [PatchBootSystemState.enter_main, M_bind_apply, hpre]
  rw [h1, h2]
  simp [PatchBootSystemState.tryElse, hbody, pivot_back_run]

/-- Witness for C1: a concrete run in the world `envPatcherFails` (the
patcher's module copy fails inside the try) ends raised with the four
rollback commands appended after the failure. -/
theorem c1_amended_w :
    PatchBootSystemState.enter envPatcherFails 3 initState =
      Outcome.raised ⟨c1wS2.time + 4, c1wS2.events ++ pivotBackEvents⟩ :=
  c1_amended envPatcherFails 3 c1wS0 c1wS1 c1wS2 rfl rfl rfl

theorem killCmds_append (a b : List Event) :
    killCmds (a ++ b) = killCmds a ++ killCmds b := by
  simp [killCmds, List.filterMap_append]

theorem leadsList_kill_self (v : String) :
    leadsList "kill -9 ".data ("kill -9 " ++ v).data = true := by
  simp [String.data_append, leadsList]

theorem leadsList_kill_umount (m : String) :
    leadsList "kill -9 ".data ("umount " ++ m).data = false := by
  simp [String.data_append, leadsList]

theorem isKillCmd_kill (v : String) :
    isKillCmd (Event.exec ("kill -9 " ++ v)) = some ("kill -9 " ++ v) := by
  show (if leadsList "kill -9 ".data ("kill -9 " ++ v).data = true
    then some ("kill -9 " ++ v) else none) = some ("kill -9 " ++ v)
  rw [leadsList_kill_self]
  rfl

theorem isKillCmd_umount (m : String) :
    isKillCmd (Event.exec ("umount " ++ m)) = none := by
  show (if leadsList "kill -9 ".data ("umount " ++ m).data = true
    then some ("umount " ++ m) else none) = none
  rw [leadsList_kill_umount]
  rfl

theorem isKillCmd_telinit : isKillCmd (Event.exec "telinit u") = none := rfl

theorem isKillCmd_sleep (n : Nat) : isKillCmd (Event.sleepSec n) = none := rfl

theorem isKillCmd_log (msg : String) : isKillCmd (Event.logMsg msg) = none := rfl

theorem killCmds_cons_log (msg : String) (l : List Event) :
    killCmds (Event.logMsg msg :: l) = killCmds l := rfl

theorem killCmds_cons_kill (v : String) (l : List Event) :
    killCmds (Event.exec ("kill -9 " ++ v) :: l) = ("kill -9 " ++ v) :: killCmds l := by
  simp [killCmds, List.filterMap_cons, isKillCmd_kill]

theorem killCmds_telinit : killCmds [Event.exec "telinit u"] = [] := rfl

theorem killCmds_umount_single (m : String) :
    killCmds [Event.exec ("umount " ++ m)] = [] := by
  simp [killCmds, List.filterMap_cons, isKillCmd_umount]

theorem killCmds_skip_single : killCmds [Event.logMsg "Skipping init"] = [] := rfl

theorem killCmds_kill_single (v : String) :
    killCmds [Event.exec ("kill -9 " ++ v)] = ["kill -9 " ++ v] := by
  simp [killCmds, List.filterMap_cons, isKillCmd_kill]

/-- The kill commands of a no-self kill-loop trace are exactly one per
non-pid-1 victim, in list order. -/
theorem killCmds_killTraceOf (vs : List String) :
    killCmds (killTraceOf vs) =
      (vs.filter (fun v => pyInt v ≠ 1)).map (fun v => "kill -9 " ++ v) := by
  induction vs with
  | nil => rfl
  | cons v vs ih =>
    by_cases h : pyInt v = 1
    · simp [killTraceOf, h, killCmds_cons_log, ih, List.filter_cons]
    · simp [killTraceOf, h, killCmds_cons_kill, ih, List.filter_cons]

/-- A kill-loop run that never meets the reclaimer's own pid completes
without raising, ticking once per kill, and appends exactly `killTraceOf`. -/
theorem kill_loop_no_self (env : Env) (vs : List String) (s : ExecState)
    (hself : ∀ v ∈ vs, pyInt v ≠ env.pid) :
    PatchBootSystemState.kill_loop env vs s =
      Outcome.ok () ⟨s.time + (vs.filter (fun v => pyInt v ≠ 1)).length,
        s.events ++ killTraceOf vs⟩ := by
  induction vs generalizing s with
  | nil => simp [PatchBootSystemState.kill_loop, M_pure_apply, killTraceOf]
  | cons v vs ih =>
    have hv : ¬ pyInt v = env.pid := hself v (List.mem_cons_self v vs)
    have hrest : ∀ w ∈ vs, pyInt w ≠ env.pid := fun w hw => hself w (List.mem_cons_of_mem v hw)
    by_cases h1 : pyInt v = 1
    · have hv1 : ¬ (1 : Nat) = env.pid := by rw [← h1]; exact hv
      simp [PatchBootSystemState.kill_loop, M_bind_apply, M_pure_apply, hv, hv1, h1, logM,
        emit_apply, ih _ hrest, killTraceOf, List.filter_cons, Nat.add_assoc, Nat.add_comm,
        Nat.add_left_comm]
    · simp [PatchBootSystemState.kill_loop, M_bind_apply, M_pure_apply, hv, h1,
        Execute_false_apply, ih _ hrest, killTraceOf, List.filter_cons, Nat.add_assoc,
        Nat.add_comm, Nat.add_left_comm]

/-- The commands after the kill loop (`telinit u`, settle, forced `umount`)
never contribute kill commands, whether or not they raise. -/
theorem killCmds_unmount_tail (env : Env) (m : String) (s : ExecState) :
    killCmds (outState ((do
      let _ ← Execute env "telinit u" true
      sleepM 3
      let _ ← Execute env ("umount " ++ m) true
      pure () : M Unit) s)).events = killCmds s.events := by
  by_cases h1 : env.exitCode s.time "telinit u" = 0
  · by_cases h2 : env.exitCode (s.time + 1) ("umount " ++ m) = 0
    · simp [M_bind_apply, Execute, h1, h2, sleepM, emit_apply, M_pure_apply, outState,
        killCmds_append, killCmds, isKillCmd_telinit, isKillCmd_sleep, isKillCmd_umount]
    · simp [M_bind_apply, Execute, h1, h2, sleepM, emit_apply, M_pure_apply, outState,
        killCmds_append, killCmds, isKillCmd_telinit, isKillCmd_sleep, isKillCmd_umount]
  · simp [M_bind_apply, Execute, h1, outState, killCmds_append, killCmds, isKillCmd_telinit]

/-- C2 counterexample: with `/var` mounted and fuser reporting processes 9
and 10, the reclaimer issues `kill -9 9` before `kill -9 10`, although 10 > 9
numerically — the sort is on the PID strings (lexicographic), not on their
numeric values, so descending numeric order is violated. -/
theorem c2_counterexample :
    killCmds (outState (PatchBootSystemState.unmount envLexOrder 2 "/var" initState)).events =
      ["kill -9 9", "kill -9 10"] ∧ pyInt "9" < pyInt "10" :=
  ⟨rfl, by decide⟩

/-- Kill commands issued by `mountpoint`/`fuser` probes: none. -/
theorem isKillCmd_mount_probe (m : String) :
    isKillCmd (Event.exec ("mountpoint " ++ m)) = none := by
  show (if leadsList "kill -9 ".data ("mountpoint " ++ m).data = true
    then some ("mountpoint " ++ m) else none) = none
  rw [show leadsList "kill -9 ".data ("mountpoint " ++ m).data = false by
    simp [String.data_append, leadsList]]
  rfl

theorem isKillCmd_fuser (m : String) :
    isKillCmd (Event.exec ("fuser -vm " ++ m)) = none := by
  show (if leadsList "kill -9 ".data ("fuser -vm " ++ m).data = true
    then some ("fuser -vm " ++ m) else none) = none
  rw [show leadsList "kill -9 ".data ("fuser -vm " ++ m).data = false by
    simp [String.data_append, leadsList]]
  rfl

/-- The kill loop followed by `telinit u`, the settle sleep and the forced
umount: its kill commands are exactly one per non-pid-1 candidate, in
candidate-list order (no-self runs). -/
theorem kill_section_ok (env : Env) (m : String) (vs : List String) (s : ExecState)
    (hself : ∀ v ∈ vs, pyInt v ≠ env.pid) :
    killCmds (outState ((do
      PatchBootSystemState.kill_loop env vs
      let _ ← Execute env "telinit u" true
      sleepM 3
      let _ ← Execute env ("umount " ++ m) true
      pure () : M Unit) s)).events =
      killCmds s.events ++
        (vs.filter (fun v => pyInt v ≠ 1)).map (fun v => "kill -9 " ++ v) := by
  rw [M_bind_apply, kill_loop_no_self env vs s hself]
  simp only []
  rw [killCmds_unmount_tail]
  rw [killCmds_append, killCmds_killTraceOf]

/-- C2 (amended): the kill candidates parsed from the fuser output are
issued their kill commands in descending LEXICOGRAPHIC order of the PID
token strings (Python sorts the digit tokens as strings and reverses), which
coincides with descending numeric order only for equal-length tokens; pid-1
tokens are skipped.  Stated for any reclaimer run on a mounted target whose
candidate set does not contain the reclaimer's own pid. -/
theorem c2_amended (env : Env) (m : String) (s : ExecState)
    (hm : env.exitCode s.time ("mountpoint " ++ m) = 0)
    (hf : env.exitCode (s.time + 1) ("fuser -vm " ++ m) = 0)
    (hself : ∀ v ∈ pyDescTokens (env.stdoutOf (s.time + 1) ("fuser -vm " ++ m)),
      pyInt v ≠ env.pid) :
    killCmds (outState (PatchBootSystemState.unmount_body env m s)).events =
      killCmds s.events ++
        (((pyDescTokens (env.stdoutOf (s.time + 1) ("fuser -vm " ++ m))).filter
          (fun v => pyInt v ≠ 1)).map (fun v => "kill -9 " ++ v)) := by
  have e1 : Execute env ("mountpoint " ++ m) false s =
      Outcome.ok 0 ⟨s.time + 1, s.events ++ [Event.exec ("mountpoint " ++ m)]⟩ := by
    rw [Execute_false_apply, hm]
  have e2 : ExecuteComm env ("fuser -vm " ++ m) true
      ⟨s.time + 1, s.events ++ [Event.exec ("mountpoint " ++ m)]⟩ =
      Outcome.ok (0, env.stdoutOf (s.time + 1) ("fuser -vm " ++ m))
        ⟨s.time + 2, (s.events ++ [Event.exec ("mountpoint " ++ m)]) ++
          [Event.exec ("fuser -vm " ++ m)]⟩ :=
    ExecuteComm_true_ok env ("fuser -vm " ++ m) _ hf
  have hself' : ∀ v ∈ (pySorted ((pySplitWs (env.stdoutOf (s.time + 1)
      ("fuser -vm " ++ m))).filter (fun p => pyIsDigit p))).reverse,
      pyInt v ≠ env.pid := hself
  rw [PatchBootSystemState.unmount_body]
  simp only [M_bind_apply, e1]
  rw [if_neg (by simp : ¬ ((0 : Nat) ≠ 0))]
  simp only [M_bind_apply, e2, logM, emit_apply]
  exact (kill_section_ok env m _
    ⟨s.time + 2, s.events ++ [Event.exec ("mountpoint " ++ m)] ++
      [Event.exec ("fuser -vm " ++ m)] ++
      [Event.logMsg ("Processes using " ++ m ++ ":
" ++
        env.stdoutOf (s.time + 1) ("fuser -vm " ++ m))]⟩ hself').trans (by
    rw [killCmds_append, killCmds_append, killCmds_append]
    simp [killCmds, List.filterMap_cons, isKillCmd_mount_probe, isKillCmd_fuser, isKillCmd_log,
      pyDescTokens])

/-- Witness for C2: concrete run on `/var` with candidates 9 and 10 — kill
commands in descending lexicographic token order ("9" before "10"). -/
theorem c2_amended_w :
    killCmds (outState (PatchBootSystemState.unmount_body envLexOrder "/var" initState)).events =
      ["kill -9 9", "kill -9 10"] := by
  have h := c2_amended envLexOrder "/var" initState rfl rfl (by decide)
  rw [h]
  rfl

theorem str_kill_ne_of (c v : String)
    (h : leadsList "kill -9 ".data c.data = false) : ("kill -9 " ++ v) ≠ c := by
  intro hEq
  have ht := leadsList_kill_self v
  rw [hEq, h] at ht
  exact Bool.false_ne_true ht

/-- No event of the self-PID branch is a kill command. -/
theorem kill_not_in_selfEvents (env : Env) (v : String) :
    Event.exec ("kill -9 " ++ v) ∉ selfEventsFull env := by
  intro h
  simp only [selfEventsFull, List.mem_cons, List.mem_singleton] at h
  rcases h with h | h | h | h | h | h | h | h | h | h
  all_goals first
    | exact Event.noConfusion h (fun hc => str_kill_ne_of _ v (by decide) hc)
    | exact Event.noConfusion h
    | simp at h

/-- Appending to the fixed kill prelude is injective. -/
theorem kill_arg_inj (a b : String) (h : ("kill -9 " ++ a) = ("kill -9 " ++ b)) : a = b := by
  have hd := congrArg String.data h
  rw [String.data_append, String.data_append] at hd
  have h2 := List.append_cancel_left hd
  cases a
  cases b
  exact congrArg String.mk h2

/-- The self-PID branch either completes, appending exactly its full event
block, or raises (on one of its three raising commands) having appended a
prefix of that block. -/
theorem self_branch_cases (env : Env) (s : ExecState) :
    PatchBootSystemState.self_branch env s =
      Outcome.ok () ⟨s.time + 4, s.events ++ selfEventsFull env⟩ ∨
    ∃ s', PatchBootSystemState.self_branch env s = Outcome.raised s' ∧
      ∀ e ∈ s'.events, e ∈ s.events ∨ e ∈ selfEventsFull env := by
  by_cases h1 : env.exitCode (s.time + 1) "at -f /delete-lock.sh now + 1 minutes" = 0
  · by_cases h2 : env.exitCode (s.time + 2) "at -f /restart-wala.sh now + 2 minutes" = 0
    · by_cases h3 : env.exitCode (s.time + 3) "pkill -f .*ForLinux.*handle.py.*daemon.*" = 0
      · left
        simp [PatchBootSystemState.self_branch, M_bind_apply, M_pure_apply, logM, chdirM,
          writeFileM, emit_apply, Execute, ExecuteInBash, h1, h2, h3, selfEventsFull,
          Nat.add_assoc]
      · right
        refine ⟨⟨s.time + 4, s.events ++ selfEventsFull env⟩, ?_, ?_⟩
        · simp [PatchBootSystemState.self_branch, M_bind_apply, M_pure_apply, logM, chdirM,
            writeFileM, emit_apply, Execute, ExecuteInBash, h1, h2, h3, selfEventsFull,
            Nat.add_assoc]
        · intro e he
          exact List.mem_append.1 he
    · right
      refine ⟨⟨s.time + 3, s.events ++ (selfEventsFull env).take 8⟩, ?_, ?_⟩
      · simp [PatchBootSystemState.self_branch, M_bind_apply, M_pure_apply, logM, chdirM,
          writeFileM, emit_apply, Execute, ExecuteInBash, h1, h2, selfEventsFull,
          Nat.add_assoc]
      · intro e he
        rcases List.mem_append.1 he with h | h
        · exact Or.inl h
        · exact Or.inr (List.mem_of_mem_take h)
  · right
    refine ⟨⟨s.time + 2, s.events ++ (selfEventsFull env).take 7⟩, ?_, ?_⟩
    · simp [PatchBootSystemState.self_branch, M_bind_apply, M_pure_apply, logM, chdirM,
        writeFileM, emit_apply, Execute, ExecuteInBash, h1, selfEventsFull, Nat.add_assoc]
    · intro e he
      rcases List.mem_append.1 he with h | h
      · exact Or.inl h
      · exact Or.inr (List.mem_of_mem_take h)

/-- A kill command for a pid-1 token is never issued by the kill loop,
whether or not the loop completes. -/
theorem kill_loop_no_init_kill (env : Env) (vs : List String) (v : String) (s : ExecState)
    (h1 : pyInt v = 1)
    (hnot : Event.exec ("kill -9 " ++ v) ∉ s.events) :
    Event.exec ("kill -9 " ++ v) ∉
      (outState (PatchBootSystemState.kill_loop env vs s)).events := by
  induction vs generalizing s with
  | nil =>
    simpa [PatchBootSystemState.kill_loop, M_pure_apply, outState] using hnot
  | cons w ws ih =>
    by_cases hp : pyInt w = env.pid
    · rcases self_branch_cases env s with hsb | ⟨s', hsb, hsub⟩
      · by_cases hw1 : pyInt w = 1
        · have hpw : env.pid = 1 := hp ▸ hw1
          have hrw : PatchBootSystemState.kill_loop env (w :: ws) s =
              PatchBootSystemState.kill_loop env ws
                ⟨s.time + 4, (s.events ++ selfEventsFull env) ++ [Event.logMsg "Skipping init"]⟩ := by
            simp [PatchBootSystemState.kill_loop, M_bind_apply, M_pure_apply, hp, hw1, hpw, hsb,
              logM, emit_apply]
          rw [hrw]
          apply ih
          intro hmem
          rcases List.mem_append.1 hmem with hmem | hmem
          · rcases List.mem_append.1 hmem with hmem | hmem
            · exact hnot hmem
            · exact kill_not_in_selfEvents env v hmem
          · simp at hmem
        · have hpw : ¬ env.pid = 1 := fun h => hw1 (hp.trans h)
          have hrw : PatchBootSystemState.kill_loop env (w :: ws) s =
              PatchBootSystemState.kill_loop env ws
                ⟨s.time + 5, (s.events ++ selfEventsFull env) ++ [Event.exec ("kill -9 " ++ w)]⟩ := by
            simp [PatchBootSystemState.kill_loop, M_bind_apply, M_pure_apply, hp, hw1, hpw, hsb,
              Execute_false_apply, Nat.add_assoc]
          rw [hrw]
          apply ih
          intro hmem
          rcases List.mem_append.1 hmem with hmem | hmem
          · rcases List.mem_append.1 hmem with hmem | hmem
            · exact hnot hmem
            · exact kill_not_in_selfEvents env v hmem
          · simp only [List.mem_singleton, Event.exec.injEq] at hmem
            exact hw1 (kill_arg_inj v w hmem ▸ h1)
      · have hrw : PatchBootSystemState.kill_loop env (w :: ws) s = Outcome.raised s' := by
          simp [PatchBootSystemState.kill_loop, M_bind_apply, hp, hsb]
        rw [hrw]
        intro hmem
        rcases hsub _ hmem with h | h
        · exact hnot h
        · exact kill_not_in_selfEvents env v h
    · by_cases hw1 : pyInt w = 1
      · have hpw : ¬ (1 : Nat) = env.pid := fun h => hp (hw1.trans h)
        have hrw : PatchBootSystemState.kill_loop env (w :: ws) s =
            PatchBootSystemState.kill_loop env ws
              ⟨s.time, s.events ++ [Event.logMsg "Skipping init"]⟩ := by
          simp [PatchBootSystemState.kill_loop, M_bind_apply, M_pure_apply, hp, hw1, hpw, logM,
            emit_apply]
        rw [hrw]
        apply ih
        intro hmem
        rcases List.mem_append.1 hmem with hmem | hmem
        · exact hnot hmem
        · simp at hmem
      · have hrw : PatchBootSystemState.kill_loop env (w :: ws) s =
            PatchBootSystemState.kill_loop env ws
              ⟨s.time + 1, s.events ++ [Event.exec ("kill -9 " ++ w)]⟩ := by
          simp [PatchBootSystemState.kill_loop, M_bind_apply, M_pure_apply, hp, hw1,
            Execute_false_apply]
        rw [hrw]
        apply ih
        intro hmem
        rcases List.mem_append.1 hmem with hmem | hmem
        · exact hnot hmem
        · simp only [List.mem_singleton, Event.exec.injEq] at hmem
          exact hw1 (kill_arg_inj v w hmem ▸ h1)

/-- A kill-loop run that completes without raising appends exactly
`killLoopTrace`. -/
theorem kill_loop_ok_shape (env : Env) (vs : List String) (s : ExecState)
    (hok : isOk (PatchBootSystemState.kill_loop env vs s) = true) :
    (outState (PatchBootSystemState.kill_loop env vs s)).events =
      s.events ++ killLoopTrace env vs := by
  induction vs generalizing s with
  | nil => simp [PatchBootSystemState.kill_loop, M_pure_apply, outState, killLoopTrace]
  | cons w ws ih =>
    by_cases hp : pyInt w = env.pid
    · rcases self_branch_cases env s with hsb | ⟨s', hsb, _⟩
      · by_cases hw1 : pyInt w = 1
        · have hpw : env.pid = 1 := hp ▸ hw1
          have hrw : PatchBootSystemState.kill_loop env (w :: ws) s =
              PatchBootSystemState.kill_loop env ws
                ⟨s.time + 4, (s.events ++ selfEventsFull env) ++ [Event.logMsg "Skipping init"]⟩ := by
            simp [PatchBootSystemState.kill_loop, M_bind_apply, M_pure_apply, hp, hw1, hpw, hsb,
              logM, emit_apply]
          rw [hrw] at hok ⊢
          rw [ih _ hok]
          simp [killLoopTrace, hp, hw1, hpw]
        · have hpw : ¬ env.pid = 1 := fun h => hw1 (hp.trans h)
          have hrw : PatchBootSystemState.kill_loop env (w :: ws) s =
              PatchBootSystemState.kill_loop env ws
                ⟨s.time + 5, (s.events ++ selfEventsFull env) ++ [Event.exec ("kill -9 " ++ w)]⟩ := by
            simp [PatchBootSystemState.kill_loop, M_bind_apply, M_pure_apply, hp, hw1, hpw, hsb,
              Execute_false_apply, Nat.add_assoc]
          rw [hrw] at hok ⊢
          rw [ih _ hok]
          simp [killLoopTrace, hp, hw1, hpw]
      · have hrw : PatchBootSystemState.kill_loop env (w :: ws) s = Outcome.raised s' := by
          simp [PatchBootSystemState.kill_loop, M_bind_apply, hp, hsb]
        rw [hrw] at hok
        simp [isOk] at hok
    · by_cases hw1 : pyInt w = 1
      · have hpw : ¬ (1 : Nat) = env.pid := fun h => hp (hw1.trans h)
        have hrw : PatchBootSystemState.kill_loop env (w :: ws) s =
            PatchBootSystemState.kill_loop env ws
              ⟨s.time, s.events ++ [Event.logMsg "Skipping init"]⟩ := by
          simp [PatchBootSystemState.kill_loop, M_bind_apply, M_pure_apply, hp, hw1, hpw, logM,
            emit_apply]
        rw [hrw] at hok ⊢
        rw [ih _ hok]
        simp [killLoopTrace, hp, hw1, hpw]
      · have hrw : PatchBootSystemState.kill_loop env (w :: ws) s =
            PatchBootSystemState.kill_loop env ws
              ⟨s.time + 1, s.events ++ [Event.exec ("kill -9 " ++ w)]⟩ := by
          simp [PatchBootSystemState.kill_loop, M_bind_apply, M_pure_apply, hp, hw1,
            Execute_false_apply]
        rw [hrw] at hok ⊢
        rw [ih _ hok]
        simp [killLoopTrace, hp, hw1]

theorem at2_mem_selfEvents (env : Env) :
    Event.exec "at -f /restart-wala.sh now + 2 minutes" ∈ selfEventsFull env := by
  simp [selfEventsFull]

/-- A self-pid candidate forces the deferred-scheduler block into the loop
trace. -/
theorem at2_mem_killLoopTrace (env : Env) (vs : List String) (v : String)
    (hv : v ∈ vs) (hp : pyInt v = env.pid) :
    Event.exec "at -f /restart-wala.sh now + 2 minutes" ∈ killLoopTrace env vs := by
  induction vs with
  | nil => cases hv
  | cons w ws ih =>
    rcases List.mem_cons.1 hv with rfl | hv'
    · refine List.mem_append.2 (Or.inl (List.mem_append.2 (Or.inl ?_)))
      rw [if_pos hp]
      exact at2_mem_selfEvents env
    · exact List.mem_append.2 (Or.inr (ih hv'))

/-- Every non-pid-1 candidate gets a kill command in the loop trace. -/
theorem kill_mem_killLoopTrace (env : Env) (vs : List String) (v : String)
    (hv : v ∈ vs) (h1 : pyInt v ≠ 1) :
    Event.exec ("kill -9 " ++ v) ∈ killLoopTrace env vs := by
  induction vs with
  | nil => cases hv
  | cons w ws ih =>
    rcases List.mem_cons.1 hv with rfl | hv'
    · refine List.mem_append.2 (Or.inl (List.mem_append.2 (Or.inr ?_)))
      rw [if_neg h1]
      simp
    · exact List.mem_append.2 (Or.inr (ih hv'))

/-- C3 counterexample: with candidates `{1, 50, 3000}` and own pid 50, the
self-PID branch issues the deferred-scheduler commands AND the loop then
falls through (there is no `continue`) to issue a direct `kill -9 50` for
the reclaimer's own pid — refuting "instead of a direct kill command". -/
theorem c3_counterexample :
    envSelfKill.pid = 50 ∧
    (outState (PatchBootSystemState.unmount envSelfKill 2 "/var" initState)).events[10]? =
      some (Event.exec "at -f /restart-wala.sh now + 2 minutes") ∧
    (outState (PatchBootSystemState.unmount envSelfKill 2 "/var" initState)).events[12]? =
      some (Event.exec "kill -9 50") :=
  ⟨rfl, rfl, rfl⟩

/-- C3 (amended): in the kill-candidate loop, a candidate token whose value
is 1 is never issued a kill command; a candidate equal to the reclaimer's
own pid triggers the deferred-scheduler commands (at-scheduled lock-file
removal and agent restart) and then, the branch falling through, ALSO
receives a direct kill command (when the loop completes and the pid is not
1). -/
theorem c3_amended (env : Env) (vs : List String) (s : ExecState) (v : String)
    (hv : v ∈ vs) :
    (pyInt v = 1 → Event.exec ("kill -9 " ++ v) ∉ s.events →
      Event.exec ("kill -9 " ++ v) ∉
        (outState (PatchBootSystemState.kill_loop env vs s)).events) ∧
    (pyInt v = env.pid → pyInt v ≠ 1 →
      isOk (PatchBootSystemState.kill_loop env vs s) = true →
      Event.exec "at -f /restart-wala.sh now + 2 minutes" ∈
        (outState (PatchBootSystemState.kill_loop env vs s)).events ∧
      Event.exec ("kill -9 " ++ v) ∈
        (outState (PatchBootSystemState.kill_loop env vs s)).events) := by
  constructor
  · intro h1 hnot
    exact kill_loop_no_init_kill env vs v s h1 hnot
  · intro hp h1 hok
    rw [kill_loop_ok_shape env vs s hok]
    constructor
    · exact List.mem_append.2 (Or.inr (at2_mem_killLoopTrace env vs v hv hp))
    · exact List.mem_append.2 (Or.inr (kill_mem_killLoopTrace env vs v hv h1))

/-- Witness for C3: the concrete candidate list `["50", "3000", "1"]` (the
descending token order for fuser output "1 50 3000") with own pid 50: pid 1
gets no kill command, the deferred-scheduler command is issued, and the self
pid also receives a direct kill. -/
theorem c3_amended_w :
    Event.exec "kill -9 1" ∉
      (outState (PatchBootSystemState.kill_loop envSelfKill ["50", "3000", "1"] initState)).events ∧
    Event.exec "at -f /restart-wala.sh now + 2 minutes" ∈
      (outState (PatchBootSystemState.kill_loop envSelfKill ["50", "3000", "1"] initState)).events ∧
    Event.exec "kill -9 50" ∈
      (outState (PatchBootSystemState.kill_loop envSelfKill ["50", "3000", "1"] initState)).events := by
  refine ⟨?_, ?_, ?_⟩
  · exact (c3_amended envSelfKill ["50", "3000", "1"] initState "1"
      (by simp)).1 (by decide) (by simp [initState])
  · exact ((c3_amended envSelfKill ["50", "3000", "1"] initState "50"
      (by simp)).2 (by decide) (by decide) (by decide)).1
  · exact ((c3_amended envSelfKill ["50", "3000", "1"] initState "50"
      (by simp)).2 (by decide) (by decide) (by decide)).2

/-- C4 counterexample: `/opt` is not mounted (its probe returns 1), yet
`unmount("/opt")` does not return immediately: before the `/opt` probe it
runs the `/var` reclaim loop, which issues a kill command (`kill -9 7`) and
an unmount command (`umount /var`). -/
theorem c4_counterexample :
    envOptNotMounted.exitCode 13 "mountpoint /opt" = 1 ∧
    isOk (PatchBootSystemState.unmount envOptNotMounted 4 "/opt" initState) = true ∧
    (outState (PatchBootSystemState.unmount envOptNotMounted 4 "/opt" initState)).events[10]? =
      some (Event.exec "kill -9 7") ∧
    (outState (PatchBootSystemState.unmount envOptNotMounted 4 "/opt" initState)).events[13]? =
      some (Event.exec "umount /var") ∧
    (outState (PatchBootSystemState.unmount envOptNotMounted 4 "/opt" initState)).events.getLast? =
      some (Event.exec "mountpoint /opt") :=
  ⟨rfl, rfl, rfl, rfl, rfl⟩

/-- C4 (amended): for `/var` itself, calling `unmount("/var")` when the
mountpoint probe reports unmounted returns immediately after that single
probe, with no kill or unmount command.  For any other mount point `m`,
`unmount(m)` first runs the `/var` reclaim loop — which may issue kill and
unmount commands for `/var` — and only then probes `m`; the part of the
run from the probe of an unmounted `m` onwards issues no further command. -/
theorem c4_amended (env : Env) (fuel : Nat) (s : ExecState) :
    (env.exitCode s.time "mountpoint /var" ≠ 0 →
      PatchBootSystemState.unmount env fuel "/var" s =
        Outcome.ok () ⟨s.time + 1, s.events ++ [Event.exec "mountpoint /var"]⟩) ∧
    (∀ m : String, env.exitCode s.time ("mountpoint " ++ m) ≠ 0 →
      PatchBootSystemState.unmount_body env m s =
        Outcome.ok () ⟨s.time + 1, s.events ++ [Event.exec ("mountpoint " ++ m)]⟩) := by
  have hbody : ∀ m : String, env.exitCode s.time ("mountpoint " ++ m) ≠ 0 →
      PatchBootSystemState.unmount_body env m s =
        Outcome.ok () ⟨s.time + 1, s.events ++ [Event.exec ("mountpoint " ++ m)]⟩ := by
    intro m hm
    rw [PatchBootSystemState.unmount_body]
    rw [M_bind_apply, Execute_false_apply]
    simp only []
    rw [if_pos hm, M_pure_apply]
  constructor
  · intro hm
    rw [PatchBootSystemState.unmount]
    have h0 : PatchBootSystemState.unmount env fuel "/var" s =
        PatchBootSystemState.unmount_body env "/var" s := by
      simp [PatchBootSystemState.unmount, M_bind_apply, M_pure_apply]
    rw [← PatchBootSystemState.unmount, h0]
    exact hbody "/var" hm
  · exact hbody

/-- Witness for C4: in a world where nothing is mounted, `unmount("/var")`
returns after the single probe, and `unmount_body` on `/opt` likewise. -/
theorem c4_amended_w :
    PatchBootSystemState.unmount envNotMounted 3 "/var" initState =
      Outcome.ok () ⟨1, [Event.exec "mountpoint /var"]⟩ ∧
    PatchBootSystemState.unmount_body envNotMounted "/opt" initState =
      Outcome.ok () ⟨1, [Event.exec "mountpoint /opt"]⟩ :=
  ⟨(c4_amended envNotMounted 3 initState).1 (by decide),
   (c4_amended envNotMounted 3 initState).2 "/opt" (by decide)⟩

theorem ExecuteInBash_true_raised (env : Env) (cmd : String) (s : ExecState)
    (h : env.exitCode s.time cmd ≠ 0) :
    ExecuteInBash env cmd true s =
      Outcome.raised ⟨s.time + 1, s.events ++ [Event.execBash cmd]⟩ := by
  simp [ExecuteInBash, h]

/-- Event shape of a uuid-path patcher run whose module copy succeeded. -/
theorem with_partuuid_run (env : Env) (r b : String) (s : ExecState)
    (hcp : env.exitCode s.time (patchCpCmd env) = 0) :
    (outState (PatchBootSystemState.modify_pivoted_oldroot_with_partuuid env r b s)).events =
      s.events ++ patchTraceOf env r b := by
  have hcp' : env.exitCode s.time
      ("cp -r " ++ pyPathJoin env.scriptdir "../../91adeOnline" ++ " /lib/dracut/modules.d/") = 0 :=
    hcp
  have e1 := Execute_true_ok env
    ("cp -r " ++ pyPathJoin env.scriptdir "../../91adeOnline" ++ " /lib/dracut/modules.d/") s hcp'
  by_cases hd : env.exitCode (s.time + 1) PatchBootSystemState.dracut_rebuild_cmd = 0
  · rw [PatchBootSystemState.modify_pivoted_oldroot_with_partuuid]
    simp [M_bind_apply, M_pure_apply, e1, PatchBootSystemState.append_contents_to_file,
      add_kernelopts, add_crypt_item, emit_apply,
      ExecuteInBash_true_ok, hd, outState, patchTraceOf, patchCpCmd, adeConfPath,
      adeConfLine1, adeConfLine2, adeConfLine3]
  · rw [PatchBootSystemState.modify_pivoted_oldroot_with_partuuid]
    simp [M_bind_apply, M_pure_apply, e1, PatchBootSystemState.append_contents_to_file,
      add_kernelopts, add_crypt_item, emit_apply,
      ExecuteInBash_true_raised, hd, outState, patchTraceOf, patchCpCmd, adeConfPath,
      adeConfLine1, adeConfLine2, adeConfLine3]

/-- Event shape of a uuid-path patcher run whose module copy failed. -/
theorem with_partuuid_run_cpfail (env : Env) (r b : String) (s : ExecState)
    (hcp : env.exitCode s.time (patchCpCmd env) ≠ 0) :
    PatchBootSystemState.modify_pivoted_oldroot_with_partuuid env r b s =
      Outcome.raised ⟨s.time + 1, s.events ++ [Event.exec (patchCpCmd env)]⟩ := by
  have hcp' : env.exitCode s.time
      ("cp -r " ++ pyPathJoin env.scriptdir "../../91adeOnline" ++ " /lib/dracut/modules.d/") ≠ 0 :=
    hcp
  rw [PatchBootSystemState.modify_pivoted_oldroot_with_partuuid]
  simp [M_bind_apply, Execute_true_raised _ _ _ hcp', patchCpCmd]

theorem appendsTo_append (path : String) (a b : List Event) :
    appendsTo path (a ++ b) = appendsTo path a ++ appendsTo path b := by
  simp [appendsTo, List.filterMap_append]

/-- C5 counterexample: running the uuid-path Boot Config Patcher twice with
the same inputs appends the three configuration lines to
`/etc/dracut.conf.d/ade.conf` twice — the edit is append-only but NOT
idempotent, the second run duplicates the lines. -/
theorem c5_counterexample :
    appendsTo adeConfPath (outState ((do
      PatchBootSystemState.modify_pivoted_oldroot_with_partuuid baseEnv "abc-123" "def-456"
      PatchBootSystemState.modify_pivoted_oldroot_with_partuuid baseEnv "abc-123" "def-456" :
        M Unit) initState)).events =
      [adeConfLine1, adeConfLine2, adeConfLine3, adeConfLine1, adeConfLine2, adeConfLine3] ∧
    fileContent adeConfPath ""
        (outState ((do
          PatchBootSystemState.modify_pivoted_oldroot_with_partuuid baseEnv "abc-123" "def-456"
          PatchBootSystemState.modify_pivoted_oldroot_with_partuuid baseEnv "abc-123" "def-456" :
            M Unit) initState)).events ≠
      fileContent adeConfPath ""
        (outState (PatchBootSystemState.modify_pivoted_oldroot_with_partuuid baseEnv
          "abc-123" "def-456" initState)).events :=
  ⟨rfl, by decide⟩

/-- C5 (amended): the uuid-path Boot Config Patcher never rewrites or
truncates a file — its only Python-level file operations are appends (it
performs no `open(..., "w")` write) — and once the module copy succeeds it
appends the three configuration lines to the initramfs build configuration
unconditionally, so a second run with the same inputs appends (duplicates)
them again; the previous content is preserved as a prefix of the new
content. -/
theorem c5_amended (env : Env) (r b : String) (s : ExecState) :
    (∀ p c, Event.writeFile p c ∈
        (outState (PatchBootSystemState.modify_pivoted_oldroot_with_partuuid env r b s)).events →
      Event.writeFile p c ∈ s.events) ∧
    (env.exitCode s.time (patchCpCmd env) = 0 →
      appendsTo adeConfPath
          (outState (PatchBootSystemState.modify_pivoted_oldroot_with_partuuid env r b s)).events =
        appendsTo adeConfPath s.events ++ [adeConfLine1, adeConfLine2, adeConfLine3] ∧
      ∀ base, fileContent adeConfPath base
          (outState (PatchBootSystemState.modify_pivoted_oldroot_with_partuuid env r b s)).events =
        fileContent adeConfPath base s.events ++ adeConfLine1 ++ adeConfLine2 ++ adeConfLine3) := by
  constructor
  · intro p c h
    by_cases hcp : env.exitCode s.time (patchCpCmd env) = 0
    · rw [with_partuuid_run env r b s hcp] at h
      rcases List.mem_append.1 h with h | h
      · exact h
      · simp [patchTraceOf] at h
    · rw [with_partuuid_run_cpfail env r b s hcp] at h
      rcases List.mem_append.1 h with h | h
      · exact h
      · simp at h
  · intro hcp
    constructor
    · rw [with_partuuid_run env r b s hcp, appendsTo_append]
      simp [appendsTo, patchTraceOf, List.filterMap_cons]
    · intro base
      rw [with_partuuid_run env r b s hcp]
      rw [fileContent, fileContent, List.foldl_append]
      simp [patchTraceOf, List.foldl_cons, List.foldl_nil]

/-- Witness for C5: concrete single run from a clean trace — exactly the
three lines are appended, and the resulting file content is their
concatenation. -/
theorem c5_amended_w :
    appendsTo adeConfPath
        (outState (PatchBootSystemState.modify_pivoted_oldroot_with_partuuid baseEnv
          "abc-123" "def-456" initState)).events =
      [adeConfLine1, adeConfLine2, adeConfLine3] ∧
    fileContent adeConfPath ""
        (outState (PatchBootSystemState.modify_pivoted_oldroot_with_partuuid baseEnv
          "abc-123" "def-456" initState)).events =
      "" ++ adeConfLine1 ++ adeConfLine2 ++ adeConfLine3 :=
  ⟨((c5_amended baseEnv "abc-123" "def-456" initState).2 rfl).1,
   ((c5_amended baseEnv "abc-123" "def-456" initState).2 rfl).2 ""⟩

/-- C6: the `/var` reclaim loop repeats the cycle (stop the seven services,
`unmount('/var')`, 3-second delay — the `unmount_var_iter` prefix) and then
probes `mountpoint /var`; it terminates exactly when that probe returns a
non-zero exit status (first conjunct: stops right after a non-zero probe;
second conjunct: recurses into the next iteration on a zero probe; third
conjunct: there is no iteration cap — while the probe keeps returning zero
the loop consumes every amount of fuel, i.e. it runs forever). -/
theorem c6_unmount_var_loop (env : Env) :
    (∀ (n : Nat) (s s₁ : ExecState),
      PatchBootSystemState.unmount_var_iter env s = Outcome.ok () s₁ →
      (env.exitCode s₁.time "mountpoint /var" ≠ 0 →
        PatchBootSystemState.unmount_var env (n + 1) s =
          Outcome.ok () ⟨s₁.time + 1, s₁.events ++ [Event.exec "mountpoint /var"]⟩) ∧
      (env.exitCode s₁.time "mountpoint /var" = 0 →
        PatchBootSystemState.unmount_var env (n + 1) s =
          PatchBootSystemState.unmount_var env n
            ⟨s₁.time + 1, s₁.events ++ [Event.exec "mountpoint /var"]⟩)) ∧
    ((∀ t, env.exitCode t "mountpoint /var" = 0) →
      (∀ s, isOk (PatchBootSystemState.unmount_var_iter env s) = true) →
      ∀ (n : Nat) (s : ExecState),
        isFuelOut (PatchBootSystemState.unmount_var env n s) = true) := by
  constructor
  · intro n s s₁ hiter
    constructor
    · intro hprobe
      rw [PatchBootSystemState.unmount_var]
      simp only [M_bind_apply, hiter, Execute_false_apply]
      rw [if_pos hprobe, M_pure_apply]
    · intro hprobe
      rw [PatchBootSystemState.unmount_var]
      simp only [M_bind_apply, hiter, Execute_false_apply, hprobe]
      simp
  · intro hall hiterok
    intro n
    induction n with
    | zero => intro s; rfl
    | succ n ih =>
      intro s
      rcases hok : PatchBootSystemState.unmount_var_iter env s with _ | s' | s'
      case ok a s₁ =>
        rw [PatchBootSystemState.unmount_var]
        simp only [M_bind_apply, hok, Execute_false_apply, hall s₁.time]
        simp only [ne_eq, not_true_eq_false, if_false, reduceIte]
        exact ih _
      case raised =>
        have := hiterok s
        rw [hok] at this
        simp [isOk] at this
      case fuelOut =>
        have := hiterok s
        rw [hok] at this
        simp [isOk] at this

/-- Witness for C6: with nothing mounted the loop stops after one iteration
(probe non-zero); with everything succeeding but `/var` always reporting
mounted, the loop exhausts any amount of fuel. -/
theorem c6_unmount_var_loop_w :
    PatchBootSystemState.unmount_var envNotMounted 1 initState =
      Outcome.ok () ⟨c6wS1.time + 1, c6wS1.events ++ [Event.exec "mountpoint /var"]⟩ ∧
    isFuelOut (PatchBootSystemState.unmount_var baseEnv 5 initState) = true :=
  ⟨((c6_unmount_var_loop envNotMounted).1 0 initState c6wS1 rfl).1 (by decide),
   ((c6_unmount_var_loop baseEnv).2 (fun _ => rfl) (fun _ => rfl)) 5 initState⟩

/-- C7: strategy selection of the boot patch step.  A non-empty root
partition identifier always selects the UUID-based path (first conjunct); an
empty identifier always selects the attribute-probe path (second conjunct);
and in the attribute-probe path, when the udevadm attribute walk output has
no `ATTR\x7bpartition\x7d` match, the operation raises the parse error right
after the copy and probe commands (third conjunct). -/
theorem c7_strategy_selection :
    (∀ (env : Env) (s : ExecState), env.root_partuuid ≠ "" →
      PatchBootSystemState.modify_pivoted_oldroot env s =
        PatchBootSystemState.modify_pivoted_oldroot_with_partuuid env env.root_partuuid
          env.boot_uuid
          ⟨s.time, s.events ++ [Event.logMsg "Pivoted into oldroot successfully"]⟩) ∧
    (∀ (env : Env) (s : ExecState), env.root_partuuid = "" →
      PatchBootSystemState.modify_pivoted_oldroot env s =
        PatchBootSystemState.modify_pivoted_oldroot_no_partuuid env
          ⟨s.time, s.events ++ [Event.logMsg "Pivoted into oldroot successfully"]⟩) ∧
    (∀ (env : Env) (s : ExecState),
      env.exitCode s.time
        ("cp -r " ++ pyPathJoin env.scriptdir "../../91ade" ++ " /lib/dracut/modules.d/") = 0 →
      env.exitCode (s.time + 1)
        ("udevadm info --attribute-walk --name=" ++ env.rootfs_block_device) = 0 →
      attrPartitionMatches (env.stdoutOf (s.time + 1)
        ("udevadm info --attribute-walk --name=" ++ env.rootfs_block_device)) = [] →
      PatchBootSystemState.modify_pivoted_oldroot_no_partuuid env s =
        Outcome.raised ⟨s.time + 2, s.events ++
          [Event.exec ("cp -r " ++ pyPathJoin env.scriptdir "../../91ade" ++
            " /lib/dracut/modules.d/"),
           Event.exec ("udevadm info --attribute-walk --name=" ++
             env.rootfs_block_device)]⟩) := by
  refine ⟨?_, ?_, ?_⟩
  · intro env s h
    rw [PatchBootSystemState.modify_pivoted_oldroot]
    simp only [M_bind_apply, logM, emit_apply]
    rw [if_neg h]
  · intro env s h
    rw [PatchBootSystemState.modify_pivoted_oldroot]
    simp only [M_bind_apply, logM, emit_apply]
    rw [if_pos h]
  · intro env s hc hu hmatch
    rw [PatchBootSystemState.modify_pivoted_oldroot_no_partuuid]
    simp only [M_bind_apply, Execute_true_ok, hc, ExecuteComm_true_ok, hu, hmatch, raiseM]
    simp [List.append_assoc]

/-- Witness for C7: a non-empty identifier ("abc") selects the UUID path, an
empty one selects the probe path, and a probe output without the attribute
match raises. -/
theorem c7_strategy_selection_w :
    PatchBootSystemState.modify_pivoted_oldroot baseEnv initState =
      PatchBootSystemState.modify_pivoted_oldroot_with_partuuid baseEnv "abc" "bu"
        ⟨0, [Event.logMsg "Pivoted into oldroot successfully"]⟩ ∧
    PatchBootSystemState.modify_pivoted_oldroot envNoAttr initState =
      PatchBootSystemState.modify_pivoted_oldroot_no_partuuid envNoAttr
        ⟨0, [Event.logMsg "Pivoted into oldroot successfully"]⟩ ∧
    PatchBootSystemState.modify_pivoted_oldroot_no_partuuid envNoAttr initState =
      Outcome.raised ⟨2, [Event.exec "cp -r /s/../../91ade /lib/dracut/modules.d/",
        Event.exec "udevadm info --attribute-walk --name=/dev/sda1"]⟩ := by
  refine ⟨?_, ?_, ?_⟩
  · exact c7_strategy_selection.1 baseEnv initState (by decide)
  · exact c7_strategy_selection.2.1 envNoAttr initState rfl
  · exact c7_strategy_selection.2.2 envNoAttr initState rfl rfl (by decide)

/-- C8: with root identifier "abc-123" and boot uuid "def-456", the UUID
patch path passes exactly the kernel parameters
`rd.luks.ade.partuuid=abc-123`, `rd.luks.ade.bootuuid=def-456`, `rd.debug`
to the kernel-options collaborator (one call), and registers exactly one
CryptItem with device path `/dev/disk/by-partuuid/abc-123`, the well-known
root mapper constant as mapper name, and LUKS header path
`/boot/luks/osluksheader`. -/
theorem c8_scenario (env : Env) (s : ExecState)
    (hcp : env.exitCode s.time (patchCpCmd env) = 0) :
    kernelOptsCalls (outState (PatchBootSystemState.modify_pivoted_oldroot_with_partuuid env
        "abc-123" "def-456" s)).events =
      kernelOptsCalls s.events ++
        [["rd.luks.ade.partuuid=abc-123", "rd.luks.ade.bootuuid=def-456", "rd.debug"]] ∧
    cryptItemsAdded (outState (PatchBootSystemState.modify_pivoted_oldroot_with_partuuid env
        "abc-123" "def-456" s)).events =
      cryptItemsAdded s.events ++
        [{ dev_path := "/dev/disk/by-partuuid/abc-123",
           mapper_name := CommonVariables.osmapper_name,
           luks_header_path := "/boot/luks/osluksheader" }] := by
  rw [with_partuuid_run env "abc-123" "def-456" s hcp]
  constructor
  · simp [kernelOptsCalls, List.filterMap_append, patchTraceOf, List.filterMap_cons]
  · simp [cryptItemsAdded, List.filterMap_append, patchTraceOf, List.filterMap_cons,
      show pyPathJoin "/dev/disk/by-partuuid/" "abc-123" = "/dev/disk/by-partuuid/abc-123"
        from rfl]

/-- Witness for C8: the scenario run from a clean trace in the benign
world. -/
theorem c8_scenario_w :
    kernelOptsCalls (outState (PatchBootSystemState.modify_pivoted_oldroot_with_partuuid baseEnv
        "abc-123" "def-456" initState)).events =
      [["rd.luks.ade.partuuid=abc-123", "rd.luks.ade.bootuuid=def-456", "rd.debug"]] ∧
    cryptItemsAdded (outState (PatchBootSystemState.modify_pivoted_oldroot_with_partuuid baseEnv
        "abc-123" "def-456" initState)).events =
      [{ dev_path := "/dev/disk/by-partuuid/abc-123",
         mapper_name := CommonVariables.osmapper_name,
         luks_header_path := "/boot/luks/osluksheader" }] :=
  ⟨(c8_scenario baseEnv initState rfl).1, (c8_scenario baseEnv initState rfl).2⟩

/-- The guard never executes a command: it returns the conjunction of the
lifecycle precondition and the mapper-device existence, appending only its
log lines. -/
theorem should_enter_run (env : Env) (s : ExecState) :
    PatchBootSystemState.should_enter env s =
      Outcome.ok (env.superShouldEnter && env.mapperExists)
        ⟨s.time, s.events ++
          (if env.superShouldEnter then
            [Event.logMsg "Verifying if machine should enter patch_boot_system state",
             Event.logMsg "Performing enter checks for patch_boot_system state"]
           else
            [Event.logMsg "Verifying if machine should enter patch_boot_system state"])⟩ := by
  cases hse : env.superShouldEnter <;> cases hme : env.mapperExists <;>
    simp [PatchBootSystemState.should_enter, M_bind_apply, M_pure_apply, logM, emit_apply,
      hse, hme]

/-- C9: when `should_enter` returns false, `enter` returns immediately in
the state the guard left (no external command is executed and no state is
mutated): the whole trace holds only the guard's log lines. -/
theorem c9_enter_noop (env : Env) (fuel : Nat) (s₀ : ExecState)
    (hret : PatchBootSystemState.should_enter env initState = Outcome.ok false s₀) :
    PatchBootSystemState.enter env fuel initState = Outcome.ok () s₀ ∧
    commandEvents s₀.events = [] := by
  rw [should_enter_run env initState, Outcome.ok.injEq] at hret
  obtain ⟨hb, hs⟩ := hret
  constructor
  · rw [PatchBootSystemState.enter]
    simp only [M_bind_apply, should_enter_run env initState, hb]
    simp only [Bool.not_false, if_pos, M_pure_apply, ite_self, Bool.false_eq_true,
      reduceIte]
    rw [hs]
  · rw [← hs]
    cases hse : env.superShouldEnter <;> simp [commandEvents, hse, initState]

/-- Witness for C9: the lifecycle precondition fails, so `enter` is a no-op
whose trace holds a single log line. -/
theorem c9_enter_noop_w :
    PatchBootSystemState.enter envNoEnter 3 initState = Outcome.ok () c9wS0 ∧
    commandEvents c9wS0.events = [] :=
  c9_enter_noop envNoEnter 3 c9wS0 rfl

theorem outState_Execute (env : Env) (cmd : String) (b : Bool) (s : ExecState) :
    outState (Execute env cmd b s) = ⟨s.time + 1, s.events ++ [Event.exec cmd]⟩ := by
  rw [Execute]
  split <;> rfl

theorem outState_ExecuteInBash (env : Env) (cmd : String) (b : Bool) (s : ExecState) :
    outState (ExecuteInBash env cmd b s) = ⟨s.time + 1, s.events ++ [Event.execBash cmd]⟩ := by
  rw [ExecuteInBash]
  split <;> rfl

theorem outState_ExecuteComm (env : Env) (cmd : String) (b : Bool) (s : ExecState) :
    outState (ExecuteComm env cmd b s) = ⟨s.time + 1, s.events ++ [Event.exec cmd]⟩ := by
  rw [ExecuteComm]
  split <;> rfl

theorem pres_bind {α β : Type} (x : M α) (f : α → M β)
    (hx : preservesLockWrites x) (hf : ∀ a, preservesLockWrites (f a)) :
    preservesLockWrites (x >>= f) := by
  intro s hs
  have hxs' := hx s hs
  rw [M_bind_apply]
  rcases hxs : x s with ⟨a, s'⟩ | s' | s'
  · rw [hxs] at hxs'
    simp only [outState] at hxs'
    exact hf a s' hxs'
  · rw [hxs] at hxs'
    simpa only [outState] using hxs'
  · rw [hxs] at hxs'
    simpa only [outState] using hxs'

theorem pres_Execute (env : Env) (cmd : String) (b : Bool) :
    preservesLockWrites (Execute env cmd b) := by
  intro s hs p c hmem
  rw [outState_Execute] at hmem
  rcases List.mem_append.1 hmem with h | h
  · exact hs p c h
  · simp at h

theorem pres_ExecuteInBash (env : Env) (cmd : String) (b : Bool) :
    preservesLockWrites (ExecuteInBash env cmd b) := by
  intro s hs p c hmem
  rw [outState_ExecuteInBash] at hmem
  rcases List.mem_append.1 hmem with h | h
  · exact hs p c h
  · simp at h

theorem pres_ExecuteComm (env : Env) (cmd : String) (b : Bool) :
    preservesLockWrites (ExecuteComm env cmd b) := by
  intro s hs p c hmem
  rw [outState_ExecuteComm] at hmem
  rcases List.mem_append.1 hmem with h | h
  · exact hs p c h
  · simp at h

theorem pres_emit (e : Event)
    (he : ∀ p c, e = Event.writeFile p c → p = "/delete-lock.sh") :
    preservesLockWrites (emit e) := by
  intro s hs p c hmem
  simp only [emit_apply, outState] at hmem
  rcases List.mem_append.1 hmem with h | h
  · exact hs p c h
  · simp only [List.mem_singleton] at h
    exact he p c h.symm

theorem pres_pure {α : Type} (a : α) : preservesLockWrites (pure a : M α) := by
  intro s hs
  simpa only [M_pure_apply, outState] using hs

theorem pres_raiseM {α : Type} : preservesLockWrites (raiseM : M α) := by
  intro s hs
  simpa only [raiseM, outState] using hs

theorem pres_logM (msg : String) : preservesLockWrites (logM msg) :=
  pres_emit _ (fun p c h => by cases h)

theorem pres_sleepM (n : Nat) : preservesLockWrites (sleepM n) :=
  pres_emit _ (fun p c h => by cases h)

theorem pres_chdirM (path : String) : preservesLockWrites (chdirM path) :=
  pres_emit _ (fun p c h => by cases h)

theorem pres_writeLock (contents : String) :
    preservesLockWrites (writeFileM "/delete-lock.sh" contents) :=
  pres_emit _ (fun p c h => by cases h; rfl)

theorem pres_append_contents (contents path : String) :
    preservesLockWrites (PatchBootSystemState.append_contents_to_file contents path) :=
  pres_emit _ (fun p c h => by cases h)

theorem pres_kernelopts (params : List String) :
    preservesLockWrites (add_kernelopts params) :=
  pres_emit _ (fun p c h => by cases h)

theorem pres_crypt_item (item : CryptItem) :
    preservesLockWrites (add_crypt_item item) :=
  pres_emit _ (fun p c h => by cases h)

theorem pres_ite {α : Type} (c : Prop) [Decidable c] (A B : M α)
    (hA : preservesLockWrites A) (hB : preservesLockWrites B) :
    preservesLockWrites (if c then A else B) := by
  split <;> assumption

theorem pres_self_branch (env : Env) :
    preservesLockWrites (PatchBootSystemState.self_branch env) := by
  unfold PatchBootSystemState.self_branch
  refine pres_bind _ _ (pres_logM _) (fun _ => ?_)
  refine pres_bind _ _ (pres_logM _) (fun _ => ?_)
  refine pres_bind _ _ (pres_logM _) (fun _ => ?_)
  refine pres_bind _ _ (pres_Execute _ _ _) (fun _ => ?_)
  refine pres_bind _ _ (pres_chdirM _) (fun _ => ?_)
  refine pres_bind _ _ (pres_writeLock _) (fun _ => ?_)
  refine pres_bind _ _ (pres_Execute _ _ _) (fun _ => ?_)
  refine pres_bind _ _ (pres_Execute _ _ _) (fun _ => ?_)
  refine pres_bind _ _ (pres_ExecuteInBash _ _ _) (fun _ => ?_)
  exact pres_pure _

theorem pres_kill_loop (env : Env) (vs : List String) :
    preservesLockWrites (PatchBootSystemState.kill_loop env vs) := by
  induction vs with
  | nil => exact pres_pure _
  | cons v vs ih =>
    rw [PatchBootSystemState.kill_loop]
    refine pres_ite _ _ _ ?_ ?_
    · refine pres_bind _ _ (pres_self_branch env) (fun _ => ?_)
      refine pres_ite _ _ _ ?_ ?_
      · exact pres_bind _ _ (pres_logM _) (fun _ => ih)
      · exact pres_bind _ _ (pres_Execute _ _ _) (fun _ => ih)
    · refine pres_bind _ _ (pres_pure _) (fun _ => ?_)
      refine pres_ite _ _ _ ?_ ?_
      · exact pres_bind _ _ (pres_logM _) (fun _ => ih)
      · exact pres_bind _ _ (pres_Execute _ _ _) (fun _ => ih)

theorem pres_unmount_body (env : Env) (m : String) :
    preservesLockWrites (PatchBootSystemState.unmount_body env m) := by
  unfold PatchBootSystemState.unmount_body
  refine pres_bind _ _ (pres_Execute _ _ _) (fun c => ?_)
  refine pres_ite _ _ _ (pres_pure _) ?_
  refine pres_bind _ _ (pres_ExecuteComm _ _ _) (fun r => ?_)
  refine pres_bind _ _ (pres_logM _) (fun _ => ?_)
  refine pres_bind _ _ (pres_kill_loop env _) (fun _ => ?_)
  refine pres_bind _ _ (pres_Execute _ _ _) (fun _ => ?_)
  refine pres_bind _ _ (pres_sleepM _) (fun _ => ?_)
  refine pres_bind _ _ (pres_Execute _ _ _) (fun _ => ?_)
  exact pres_pure _

theorem pres_stop_services (env : Env) :
    preservesLockWrites (PatchBootSystemState.stop_services env) := by
  unfold PatchBootSystemState.stop_services
  refine pres_bind _ _ (pres_Execute _ _ _) (fun _ => ?_)
  refine pres_bind _ _ (pres_Execute _ _ _) (fun _ => ?_)
  refine pres_bind _ _ (pres_Execute _ _ _) (fun _ => ?_)
  refine pres_bind _ _ (pres_Execute _ _ _) (fun _ => ?_)
  refine pres_bind _ _ (pres_Execute _ _ _) (fun _ => ?_)
  refine pres_bind _ _ (pres_Execute _ _ _) (fun _ => ?_)
  refine pres_bind _ _ (pres_Execute _ _ _) (fun _ => ?_)
  exact pres_pure _

theorem pres_unmount_var_iter (env : Env) :
    preservesLockWrites (PatchBootSystemState.unmount_var_iter env) := by
  unfold PatchBootSystemState.unmount_var_iter
  refine pres_bind _ _ (pres_stop_services env) (fun _ => ?_)
  exact pres_bind _ _ (pres_unmount_body env _) (fun _ => pres_sleepM _)

theorem pres_unmount_var (env : Env) (fuel : Nat) :
    preservesLockWrites (PatchBootSystemState.unmount_var env fuel) := by
  induction fuel with
  | zero => intro s hs; exact hs
  | succ n ih =>
    rw [PatchBootSystemState.unmount_var]
    refine pres_bind _ _ (pres_unmount_var_iter env) (fun _ => ?_)
    refine pres_bind _ _ (pres_Execute _ _ _) (fun c => ?_)
    exact pres_ite _ _ _ (pres_pure _) ih

theorem pres_unmount (env : Env) (fuel : Nat) (m : String) :
    preservesLockWrites (PatchBootSystemState.unmount env fuel m) := by
  unfold PatchBootSystemState.unmount
  refine pres_ite _ _ _ ?_ ?_
  · exact pres_bind _ _ (pres_unmount_var env fuel) (fun _ => pres_unmount_body env m)
  · exact pres_bind _ _ (pres_pure _) (fun _ => pres_unmount_body env m)

theorem pres_unmount_lvm_loop (env : Env) (fuel : Nat) (mps : List String) :
    preservesLockWrites (PatchBootSystemState.unmount_lvm_loop env fuel mps) := by
  induction mps with
  | nil => exact pres_pure _
  | cons mp rest ih =>
    rw [PatchBootSystemState.unmount_lvm_loop]
    refine pres_bind _ _ (pres_Execute _ _ _) (fun c => ?_)
    refine pres_ite _ _ _ ?_ ?_
    · refine pres_bind _ _ (pres_unmount env fuel _) (fun _ => ?_)
      refine pres_bind _ _ (pres_Execute _ _ _) (fun c2 => ?_)
      refine pres_ite _ _ _ ?_ ?_
      · exact pres_bind _ _ (pres_unmount env fuel _) (fun _ => ih)
      · exact pres_bind _ _ (pres_pure _) (fun _ => ih)
    · refine pres_bind _ _ (pres_pure _) (fun _ => ?_)
      refine pres_bind _ _ (pres_Execute _ _ _) (fun c2 => ?_)
      refine pres_ite _ _ _ ?_ ?_
      · exact pres_bind _ _ (pres_unmount env fuel _) (fun _ => ih)
      · exact pres_bind _ _ (pres_pure _) (fun _ => ih)

theorem pres_unmount_lvm_volumes (env : Env) (fuel : Nat) :
    preservesLockWrites (PatchBootSystemState.unmount_lvm_volumes env fuel) := by
  unfold PatchBootSystemState.unmount_lvm_volumes
  refine pres_bind _ _ (pres_Execute _ _ _) (fun _ => ?_)
  refine pres_bind _ _ (pres_Execute _ _ _) (fun _ => ?_)
  refine pres_bind _ _ (pres_unmount_lvm_loop env fuel _) (fun _ => ?_)
  exact pres_unmount_var env fuel

theorem pres_luks_open (env : Env) (bek : String) :
    preservesLockWrites (PatchBootSystemState.luks_open env bek) := by
  unfold PatchBootSystemState.luks_open
  refine pres_bind _ _ (pres_Execute _ _ _) (fun _ => ?_)
  exact pres_bind _ _ (pres_Execute _ _ _) (fun _ => pres_pure _)

theorem pres_with_partuuid (env : Env) (r b : String) :
    preservesLockWrites (PatchBootSystemState.modify_pivoted_oldroot_with_partuuid env r b) := by
  unfold PatchBootSystemState.modify_pivoted_oldroot_with_partuuid
  refine pres_bind _ _ (pres_Execute _ _ _) (fun _ => ?_)
  refine pres_bind _ _ (pres_append_contents _ _) (fun _ => ?_)
  refine pres_bind _ _ (pres_append_contents _ _) (fun _ => ?_)
  refine pres_bind _ _ (pres_kernelopts _) (fun _ => ?_)
  refine pres_bind _ _ (pres_crypt_item _) (fun _ => ?_)
  refine pres_bind _ _ (pres_append_contents _ _) (fun _ => ?_)
  exact pres_bind _ _ (pres_ExecuteInBash _ _ _) (fun _ => pres_pure _)

theorem pres_no_partuuid (env : Env) :
    preservesLockWrites (PatchBootSystemState.modify_pivoted_oldroot_no_partuuid env) := by
  unfold PatchBootSystemState.modify_pivoted_oldroot_no_partuuid
  refine pres_bind _ _ (pres_Execute _ _ _) (fun _ => ?_)
  refine pres_bind _ _ (pres_ExecuteComm _ _ _) (fun r => ?_)
  rcases attrPartitionMatches r.2 with _ | ⟨p, rest⟩
  · exact pres_raiseM
  · refine pres_bind _ _ (pres_Execute _ _ _) (fun _ => ?_)
    refine pres_bind _ _ (pres_append_contents _ _) (fun _ => ?_)
    refine pres_bind _ _ (pres_append_contents _ _) (fun _ => ?_)
    exact pres_bind _ _ (pres_ExecuteInBash _ _ _) (fun _ => pres_kernelopts _)

theorem pres_modify_oldroot (env : Env) :
    preservesLockWrites (PatchBootSystemState.modify_pivoted_oldroot env) := by
  unfold PatchBootSystemState.modify_pivoted_oldroot
  refine pres_bind _ _ (pres_logM _) (fun _ => ?_)
  exact pres_ite _ _ _ (pres_no_partuuid env) (pres_with_partuuid env _ _)

theorem pres_pivot_back (env : Env) :
    preservesLockWrites (PatchBootSystemState.pivot_back_cmds env) := by
  unfold PatchBootSystemState.pivot_back_cmds
  refine pres_bind _ _ (pres_Execute _ _ _) (fun _ => ?_)
  refine pres_bind _ _ (pres_Execute _ _ _) (fun _ => ?_)
  refine pres_bind _ _ (pres_Execute _ _ _) (fun _ => ?_)
  exact pres_bind _ _ (pres_ExecuteInBash _ _ _) (fun _ => pres_pure _)

theorem pres_enter_success_tail (env : Env) (fuel : Nat) :
    preservesLockWrites (PatchBootSystemState.enter_success_tail env fuel) := by
  unfold PatchBootSystemState.enter_success_tail
  refine pres_bind _ _ (pres_Execute _ _ _) (fun _ => ?_)
  refine pres_bind _ _ (pres_ExecuteInBash _ _ _) (fun _ => ?_)
  refine pres_bind _ _ (pres_ExecuteInBash _ _ _) (fun _ => ?_)
  refine pres_bind _ _ (pres_Execute _ _ _) (fun _ => ?_)
  refine pres_bind _ _ (pres_ExecuteInBash _ _ _) (fun _ => ?_)
  refine pres_bind _ _ (pres_ExecuteInBash _ _ _) (fun _ => ?_)
  refine pres_bind _ _ (pres_Execute _ _ _) (fun _ => ?_)
  refine pres_bind _ _ (pres_ExecuteInBash _ _ _) (fun _ => ?_)
  refine pres_bind _ _ (pres_Execute _ _ _) (fun _ => ?_)
  refine pres_bind _ _ (pres_Execute _ _ _) (fun _ => ?_)
  refine pres_bind _ _ (pres_Execute _ _ _) (fun _ => ?_)
  refine pres_bind _ _ (pres_Execute _ _ _) (fun _ => ?_)
  refine pres_bind _ _ (pres_logM _) (fun _ => ?_)
  exact pres_unmount_lvm_volumes env fuel

theorem pres_tryElse (body handler els : M Unit)
    (hb : preservesLockWrites body) (hh : preservesLockWrites handler)
    (he : preservesLockWrites els) :
    preservesLockWrites (PatchBootSystemState.tryElse body handler els) := by
  intro s hs
  rw [PatchBootSystemState.tryElse]
  have hb' := hb s hs
  rcases hbs : body s with ⟨a, s'⟩ | s' | s'
  · rw [hbs] at hb'
    simp only [outState] at hb'
    exact he s' hb'
  · rw [hbs] at hb'
    simp only [outState] at hb'
    have hh' := hh s' hb'
    simp only []
    rcases hhs : handler s' with ⟨a, s''⟩ | s'' | s''
    · rw [hhs] at hh'
      simpa only [outState] using hh'
    · rw [hhs] at hh'
      simpa only [outState] using hh'
    · rw [hhs] at hh'
      simpa only [outState] using hh'
  · rw [hbs] at hb'
    simpa only [outState] using hb'

theorem pres_enter_prelude (env : Env) (fuel : Nat) :
    preservesLockWrites (PatchBootSystemState.enter_prelude env fuel) := by
  unfold PatchBootSystemState.enter_prelude
  refine pres_bind _ _ (pres_logM _) (fun _ => ?_)
  refine pres_bind _ _ (pres_Execute _ _ _) (fun _ => ?_)
  refine pres_bind _ _ (pres_Execute _ _ _) (fun _ => ?_)
  refine pres_bind _ _ (pres_Execute _ _ _) (fun _ => ?_)
  refine pres_bind _ _ (pres_Execute _ _ _) (fun _ => ?_)
  refine pres_bind _ _ (pres_luks_open env _) (fun _ => ?_)
  refine pres_bind _ _ (pres_unmount_lvm_volumes env fuel) (fun _ => ?_)
  refine pres_bind _ _ (pres_Execute _ _ _) (fun _ => ?_)
  refine pres_bind _ _ (pres_Execute _ _ _) (fun _ => ?_)
  refine pres_bind _ _ (pres_Execute _ _ _) (fun _ => ?_)
  refine pres_bind _ _ (pres_Execute _ _ _) (fun _ => ?_)
  refine pres_bind _ _ (pres_Execute _ _ _) (fun _ => ?_)
  refine pres_bind _ _ (pres_Execute _ _ _) (fun _ => ?_)
  refine pres_bind _ _ (pres_Execute _ _ _) (fun _ => ?_)
  refine pres_bind _ _ (pres_Execute _ _ _) (fun _ => ?_)
  refine pres_bind _ _ (pres_Execute _ _ _) (fun _ => ?_)
  refine pres_bind _ _ (pres_Execute _ _ _) (fun _ => ?_)
  refine pres_bind _ _ (pres_Execute _ _ _) (fun _ => ?_)
  refine pres_bind _ _ (pres_Execute _ _ _) (fun _ => ?_)
  refine pres_bind _ _ (pres_ExecuteInBash _ _ _) (fun _ => ?_)
  exact pres_bind _ _ (pres_ExecuteInBash _ _ _) (fun _ => pres_pure _)

theorem pres_should_enter (env : Env) :
    preservesLockWrites (PatchBootSystemState.should_enter env) := by
  unfold PatchBootSystemState.should_enter
  refine pres_bind _ _ (pres_logM _) (fun _ => ?_)
  refine pres_ite _ _ _ (pres_pure _) ?_
  refine pres_bind _ _ (pres_logM _) (fun _ => ?_)
  exact pres_ite _ _ _ (pres_pure _) (pres_pure _)

theorem pres_enter (env : Env) (fuel : Nat) :
    preservesLockWrites (PatchBootSystemState.enter env fuel) := by
  unfold PatchBootSystemState.enter
  refine pres_bind _ _ (pres_should_enter env) (fun se => ?_)
  refine pres_ite _ _ _ (pres_pure _) ?_
  unfold PatchBootSystemState.enter_main
  refine pres_bind _ _ (pres_enter_prelude env fuel) (fun _ => ?_)
  refine pres_tryElse _ _ _ (pres_modify_oldroot env) (pres_pivot_back env) ?_
  exact pres_bind _ _ (pres_pivot_back env) (fun _ => pres_enter_success_tail env fuel)

/-- C10: across any complete `enter` run (first conjunct: any world, any
fuel), every `open(..., "w")`-style file the engine itself creates is the
lock-removal script `/delete-lock.sh`; the self-PID branch writes exactly
that one script (second conjunct) while submitting `/restart-wala.sh` to the
deferred scheduler without ever writing it (third conjunct: the at-command
naming `/restart-wala.sh` is issued as soon as the lock-file submission
succeeded, yet by the first conjunct no write to `/restart-wala.sh` ever
happens, so that script must pre-exist). -/
theorem c10_restart_script (env : Env) (fuel : Nat) :
    (∀ p c, Event.writeFile p c ∈
        (outState (PatchBootSystemState.enter env fuel initState)).events →
      p = "/delete-lock.sh") ∧
    (∀ s : ExecState,
      writeFileEvents (outState (PatchBootSystemState.self_branch env s)).events =
        writeFileEvents s.events ++
          [("/delete-lock.sh",
            "rm -f /var/lib/azure_disk_encryption_config/daemon_lock_file.lck\n")]) ∧
    (∀ s : ExecState,
      env.exitCode (s.time + 1) "at -f /delete-lock.sh now + 1 minutes" = 0 →
      Event.exec "at -f /restart-wala.sh now + 2 minutes" ∈
        (outState (PatchBootSystemState.self_branch env s)).events) := by
  refine ⟨?_, ?_, ?_⟩
  · exact pres_enter env fuel initState (by intro p c h; simp [initState] at h)
  · intro s
    by_cases h1 : env.exitCode (s.time + 1) "at -f /delete-lock.sh now + 1 minutes" = 0
    · by_cases h2 : env.exitCode (s.time + 2) "at -f /restart-wala.sh now + 2 minutes" = 0
      · by_cases h3 : env.exitCode (s.time + 3) "pkill -f .*ForLinux.*handle.py.*daemon.*" = 0
        · simp [PatchBootSystemState.self_branch, M_bind_apply, M_pure_apply, logM, chdirM,
            writeFileM, emit_apply, Execute, ExecuteInBash, h1, h2, h3, outState,
            writeFileEvents, List.filterMap_append, List.filterMap_cons]
        · simp [PatchBootSystemState.self_branch, M_bind_apply, M_pure_apply, logM, chdirM,
            writeFileM, emit_apply, Execute, ExecuteInBash, h1, h2, h3, outState,
            writeFileEvents, List.filterMap_append, List.filterMap_cons]
      · simp [PatchBootSystemState.self_branch, M_bind_apply, M_pure_apply, logM, chdirM,
          writeFileM, emit_apply, Execute, ExecuteInBash, h1, h2, outState,
          writeFileEvents, List.filterMap_append, List.filterMap_cons]
    · simp [PatchBootSystemState.self_branch, M_bind_apply, M_pure_apply, logM, chdirM,
        writeFileM, emit_apply, Execute, ExecuteInBash, h1, outState,
        writeFileEvents, List.filterMap_append, List.filterMap_cons]
  · intro s h1
    by_cases h2 : env.exitCode (s.time + 2) "at -f /restart-wala.sh now + 2 minutes" = 0
    · by_cases h3 : env.exitCode (s.time + 3) "pkill -f .*ForLinux.*handle.py.*daemon.*" = 0
      · simp [PatchBootSystemState.self_branch, M_bind_apply, M_pure_apply, logM, chdirM,
          writeFileM, emit_apply, Execute, ExecuteInBash, h1, h2, h3, outState]
      · simp [PatchBootSystemState.self_branch, M_bind_apply, M_pure_apply, logM, chdirM,
          writeFileM, emit_apply, Execute, ExecuteInBash, h1, h2, h3, outState]
    · simp [PatchBootSystemState.self_branch, M_bind_apply, M_pure_apply, logM, chdirM,
        writeFileM, emit_apply, Execute, ExecuteInBash, h1, h2, outState]

/-- Witness for C10: concrete self-PID branch run — exactly one script file
write (`/delete-lock.sh`) and the deferred agent-restart submission. -/
theorem c10_restart_script_w :
    writeFileEvents (outState (PatchBootSystemState.self_branch baseEnv initState)).events =
      [("/delete-lock.sh",
        "rm -f /var/lib/azure_disk_encryption_config/daemon_lock_file.lck\n")] ∧
    Event.exec "at -f /restart-wala.sh now + 2 minutes" ∈
      (outState (PatchBootSystemState.self_branch baseEnv initState)).events := by
  constructor
  · have h := (c10_restart_script baseEnv 0).2.1 initState
    simpa [initState, writeFileEvents] using h
  · exact (c10_restart_script baseEnv 0).2.2 initState rfl
